import Mathlib

/-!
Verification of the kcron keytab initializer (fermilab-util_kcron).

This file gives a shallow embedding of the C sources under src/C:
kcron_caps.h, kcron_filename.h, kcron_empty_keytab_file.h, kcron_setup.h,
kcron_landlock.h, kcron_seccomp.h and init-kcron-keytab.c.

Modelling conventions:
- Every kernel or library call whose outcome branches the C code is given an
  explicit Boolean (or Option) field in an environment structure; one field per
  call site, since the code is loop free and each call site runs at most once.
- A function that may call exit(EXIT_FAILURE) is modelled with the result type
  Res, whose constructor Res.exit means the process terminated inside the call.
- The process capability state (effective and permitted sets, which the code
  always changes together) is modelled as a list of capability numbers threaded
  through the functions; the empty list means no privileges.
- Observable filesystem effects are recorded as an event list, and stderr
  diagnostics as a list of message strings (the printf format text without the
  program name and interpolated arguments).
- Compile time configuration (the configured base directory, the buffer bound
  FILE_PATH_MAX_LENGTH and USERNAME_MAX_LENGTH from autoconf.h, the USE_LANDLOCK
  and USE_SECCOMP toggles) is passed as parameters, since autoconf.h is not part
  of the sources.
-/

namespace Kcron

/-- Result of running a modelled piece of the program: either the process has
terminated via exit(EXIT_FAILURE) inside the code, or the code returned
normally with a value. -/
inductive Res (α : Type) where
  | exit : Res α
  | ok : α → Res α
deriving DecidableEq, Repr

/-- Linux capability number for CAP_CHOWN. -/
def CAP_CHOWN : Nat := 0

/-- Linux capability number for CAP_DAC_OVERRIDE. -/
def CAP_DAC_OVERRIDE : Nat := 1

/-- Mode constant _0600 = S_IRUSR | S_IWUSR (octal 0600). -/
def mode0600 : Nat := 0o600

/-- Mode constant _0700 = S_IRWXU (octal 0700). -/
def mode0700 : Nat := 0o700

/-! ## kcron_filename.h -/

/-- Model of get_client_dirname (kcron_filename.h).

The C function copies the compile time constant __CLIENT_KEYTAB_DIR into the
caller buffer with snprintf bounded by FILE_PATH_MAX_LENGTH, exits if snprintf
reports an output length of FILE_PATH_MAX_LENGTH or more (truncation), and
otherwise returns 0 with the buffer holding the constant exactly.  The base
directory B and the bound maxLen are parameters here because both come from
autoconf.h.  The NULL buffer check and the snprintf negative return are not
reachable in the modelled call graph and are elided. -/
def get_client_dirname (B : String) (maxLen : Nat) : Res (Nat × String) :=
  if maxLen ≤ B.length then .exit
  else .ok (0, B)

/-- Model of get_filenames (kcron_filename.h).

Builds the uid string with snprintf bounded by USERNAME_MAX_LENGTH, the
constant file name "client.keytab", the per user directory
__CLIENT_KEYTAB_DIR/uid and the full path dir/filename, each bounded by
FILE_PATH_MAX_LENGTH; every bound violation exits, and only the numeric uid
(getuid) enters the result.  Returns (0, dir, filename, fullpath). -/
def get_filenames (B : String) (uid : Nat) (maxLen unameMax : Nat) :
    Res (Nat × String × String × String) :=
  let uidStr := Nat.repr uid
  if unameMax ≤ uidStr.length then .exit
  else
    let fname := "client.keytab"
    if maxLen ≤ fname.length then .exit
    else
      let dir := B ++ "/" ++ uidStr
      if maxLen ≤ dir.length then .exit
      else
        let kt := dir ++ "/" ++ fname
        if maxLen ≤ kt.length then .exit
        else .ok (0, dir, fname, kt)

/-! ## kcron_caps.h -/

/-- Outcomes of the three libcap calls made by disable_capabilities:
cap_get_proc, cap_clear, cap_set_proc. -/
structure DisableEnv where
  getProcOk : Bool
  clearOk : Bool
  setProcOk : Bool
deriving DecidableEq, Repr

/-- Model of disable_capabilities (kcron_caps.h).

Clears the whole process capability state (all flags); each of the three
libcap steps exits the process on failure, so a failing drop never returns.
On success the capability state is the empty set. -/
def disable_capabilities (e : DisableEnv) (_caps : List Nat) : Res (List Nat) :=
  if !e.getProcOk then .exit
  else if !e.clearOk then .exit
  else if !e.setProcOk then .exit
  else .ok []

/-- Outcomes of the libcap calls made by enable_capabilities: the first
cap_get_proc, the embedded disable_capabilities call, the second cap_get_proc,
the two cap_set_flag calls (PERMITTED then EFFECTIVE) and cap_set_proc. -/
structure EnableEnv where
  getProc1Ok : Bool
  dis : DisableEnv
  getProc2Ok : Bool
  setFlagPermittedOk : Bool
  setFlagEffectiveOk : Bool
  setProcOk : Bool
deriving DecidableEq, Repr

/-- Model of enable_capabilities (kcron_caps.h).

Clears the current capability state (via disable_capabilities) and then sets
exactly the requested capability list into both PERMITTED and EFFECTIVE.
Every failure path calls exit, so the function returns only 0; the NULL
array and non positive count guards are modelled by the emptiness check on
the requested list. -/
def enable_capabilities (e : EnableEnv) (expected : List Nat) (caps : List Nat) :
    Res (Nat × List Nat) :=
  if expected = [] then .exit
  else if !e.getProc1Ok then .exit
  else
    match disable_capabilities e.dis caps with
    | .exit => .exit
    | .ok _caps1 =>
      if !e.getProc2Ok then .exit
      else if !e.setFlagPermittedOk then .exit
      else if !e.setFlagEffectiveOk then .exit
      else if !e.setProcOk then .exit
      else .ok (0, expected)

/-! ## Observable filesystem effects -/

/-- Observable filesystem effects of the initializer: directory creation and
directory ownership change (mkdir_if_missing), file open or create, file
byte writes, fsync, file mode change and file ownership change. -/
inductive Ev where
  | evMkdir (mode : Nat)
  | evDirChown (u g : Nat)
  | evOpenFile (mode : Nat)
  | evFileWrite (b : Nat)
  | evFsync
  | evFileChmod (mode : Nat)
  | evFileChown (u g : Nat)
deriving DecidableEq, Repr

/-- State of the keytab regular file visible to the program: whether the
inode is a regular file, its mode bits, owner, group and byte content. -/
structure FileSt where
  isReg : Bool
  mode : Nat
  uid : Nat
  gid : Nat
  content : List Nat
deriving DecidableEq, Repr

/-! ## kcron_empty_keytab_file.h -/

/-- Outcomes of the two write calls (number of bytes written, none for an
error return) and the fsync call made by write_empty_keytab. -/
structure WriteEnv where
  w1 : Option Nat
  w2 : Option Nat
  fsyncOk : Bool
deriving DecidableEq, Repr

/-- Model of write_empty_keytab (kcron_empty_keytab_file.h).

Rejects descriptors below 0 and descriptors 0, 1, 2 (exit); writes the
version byte 0x05 and then the format byte 0x02 with one write call each,
exiting unless the call reports exactly one byte written; finally fsync,
exiting on failure.  A write call that reports one byte appends that byte to
the file content; a short write appends nothing.  Returns the C return value
0 together with the new file content and the attempted write and sync
events, in program order. -/
def write_empty_keytab (e : WriteEnv) (fd : Int) (content : List Nat) :
    Res Nat × List Nat × List Ev :=
  if fd < 0 then (.exit, content, [])
  else if fd = 0 then (.exit, content, [])
  else if fd = 1 then (.exit, content, [])
  else if fd = 2 then (.exit, content, [])
  else
    let c1 := content ++ (if e.w1 = some 1 then [0x05] else [])
    if e.w1 ≠ some 1 then (.exit, c1, [.evFileWrite 0x05])
    else
      let c2 := c1 ++ (if e.w2 = some 1 then [0x02] else [])
      if e.w2 ≠ some 1 then (.exit, c2, [.evFileWrite 0x05, .evFileWrite 0x02])
      else if !e.fsyncOk then
        (.exit, c2, [.evFileWrite 0x05, .evFileWrite 0x02, .evFsync])
      else (.ok 0, c2, [.evFileWrite 0x05, .evFileWrite 0x02, .evFsync])

/-! ## init-kcron-keytab.c: mkdir_if_missing -/

/-- Outcomes of the system calls made by mkdir_if_missing, one field per call
site, in source order: lstat, stat, the first enable_capabilities bracket,
mkdir, opendir, fstat on the directory handle, the second bracket and fchown,
with a DisableEnv for every disable_capabilities call site (dA for the mkdir
failure path, dB opendir failure, dC fstat failure, dD the main drop after
fstat, dE the not a directory branch, dF the fchown failure path, dG the
final drop). -/
structure MkdirEnv where
  dirNull : Bool
  lstatOk : Bool
  lstatIsLnk : Bool
  statOk : Bool
  statIsDir : Bool
  en1 : EnableEnv
  mkdirOk : Bool
  dA : DisableEnv
  opendirOk : Bool
  dB : DisableEnv
  fstatOk : Bool
  dC : DisableEnv
  dD : DisableEnv
  fstatIsDir : Bool
  dE : DisableEnv
  en2 : EnableEnv
  fchownOk : Bool
  dF : DisableEnv
  dG : DisableEnv
deriving DecidableEq, Repr

/-- Result of a modelled initializer helper: the C return value paired with
the capability state at return (or Res.exit when the process terminated),
the filesystem events performed, the capability state sampled at the
program points that lie outside any capability bracket, and the stderr
diagnostics issued by the function itself, in order. -/
structure MkdirOut where
  res : Res (Nat × List Nat)
  evs : List Ev
  samples : List (List Nat)
  msgs : List String
deriving DecidableEq, Repr

/-- Lines 142 to 159 of init-kcron-keytab.c, inside mkdir_if_missing: the
second capability bracket around fchown of the open directory handle
(enable, fchown, final drop).  caps2 is the capability state on entry,
which the program reaches with privileges already dropped. -/
def mkdir_bracket2 (e : MkdirEnv) (owner group : Nat) (caps2 : List Nat) :
    MkdirOut :=
  match enable_capabilities e.en2 [CAP_CHOWN, CAP_DAC_OVERRIDE] caps2 with
  | .exit => ⟨.exit, [], [], []⟩
  | .ok (r2, caps3) =>
    if r2 ≠ 0 then ⟨.ok (1, caps3), [], [], ["Cannot enable capabilities."]⟩
    else if !e.fchownOk then
      match disable_capabilities e.dF caps3 with
      | .exit => ⟨.exit, [], [], []⟩
      | .ok c =>
        ⟨.ok (1, c), [], [c], ["Unable to chown", "This may be a permissions error?"]⟩
    else
      match disable_capabilities e.dG caps3 with
      | .exit => ⟨.exit, [Ev.evDirChown owner group], [], []⟩
      | .ok caps4 => ⟨.ok (0, caps4), [Ev.evDirChown owner group], [caps4], []⟩

/-- Lines 135 to 159 of init-kcron-keytab.c, inside mkdir_if_missing: the
directory re verification on the open handle after the capability drop of
line 133, then the fchown bracket. -/
def mkdir_verify (e : MkdirEnv) (owner group : Nat) (caps2 : List Nat) : MkdirOut :=
  if !e.fstatIsDir then
    match disable_capabilities e.dE caps2 with
    | .exit => ⟨.exit, [], [], []⟩
    | .ok c => ⟨.ok (1, c), [], [c], ["is not a directory."]⟩
  else mkdir_bracket2 e owner group caps2

/-- Lines 109 to 159 of init-kcron-keytab.c, inside mkdir_if_missing: the
body of the first capability bracket (mkdir, opendir, fstat of the handle,
the capability drop of line 133) and everything after it.  caps1 is the
capability state the bracket established. -/
def mkdir_bracket1 (e : MkdirEnv) (mode owner group : Nat) (caps1 : List Nat) :
    MkdirOut :=
  if !e.mkdirOk then
    match disable_capabilities e.dA caps1 with
    | .exit => ⟨.exit, [], [], []⟩
    | .ok c => ⟨.ok (1, c), [], [c], ["Unable to mkdir"]⟩
  else if !e.opendirOk then
    match disable_capabilities e.dB caps1 with
    | .exit => ⟨.exit, [Ev.evMkdir mode], [], []⟩
    | .ok c =>
      ⟨.ok (1, c), [Ev.evMkdir mode], [c],
        ["Unable to locate", "This may be a permissions error?"]⟩
  else if !e.fstatOk then
    match disable_capabilities e.dC caps1 with
    | .exit => ⟨.exit, [Ev.evMkdir mode], [], []⟩
    | .ok c =>
      ⟨.ok (1, c), [Ev.evMkdir mode], [c],
        ["could not be created.", "This may be a permissions error?"]⟩
  else
    match disable_capabilities e.dD caps1 with
    | .exit => ⟨.exit, [Ev.evMkdir mode], [], []⟩
    | .ok caps2 =>
      let o := mkdir_verify e owner group caps2
      ⟨o.res, Ev.evMkdir mode :: o.evs, caps2 :: o.samples, o.msgs⟩

/-- Model of mkdir_if_missing (init-kcron-keytab.c).

Symlink check by lstat first; an existing directory is success with no
effect; an existing non directory fails; otherwise the directory is created
and chowned, each privileged step inside its own capability bracket.
The samples list records the capability state at the out of bracket points:
function entry and after each successful capability drop. -/
def mkdir_if_missing (e : MkdirEnv) (mode owner group : Nat) (caps0 : List Nat) :
    MkdirOut :=
  if e.dirNull then ⟨.ok (0, caps0), [], [caps0], []⟩
  else if e.lstatOk && e.lstatIsLnk then
    ⟨.ok (1, caps0), [], [caps0], ["is a symlink, not allowed."]⟩
  else if e.statOk then
    if e.statIsDir then ⟨.ok (0, caps0), [], [caps0], []⟩
    else ⟨.ok (1, caps0), [], [caps0], ["is not a directory."]⟩
  else
    match enable_capabilities e.en1 [CAP_CHOWN, CAP_DAC_OVERRIDE] caps0 with
    | .exit => ⟨.exit, [], [caps0], []⟩
    | .ok (r1, caps1) =>
      if r1 ≠ 0 then ⟨.ok (1, caps1), [], [caps0], ["Cannot enable capabilities."]⟩
      else
        let o := mkdir_bracket1 e mode owner group caps1
        ⟨o.res, o.evs, caps0 :: o.samples, o.msgs⟩

/-! ## init-kcron-keytab.c: chown_chmod_keytab -/

/-- Outcomes of the calls made by chown_chmod_keytab, in source order:
the first bracket, fstat on the open handle, fchmod, the second bracket and
fchown (dA is the drop in the fstat failure path, dB the drop after a
successful fstat, dC the drop in the fchmod failure path, dD the drop in
the fchown failure path, dE the drop after a successful fchown). -/
structure ChownEnv where
  en1 : EnableEnv
  fstatOk : Bool
  dA : DisableEnv
  dB : DisableEnv
  fchmodOk : Bool
  dC : DisableEnv
  en2 : EnableEnv
  fchownOk : Bool
  dD : DisableEnv
  dE : DisableEnv
deriving DecidableEq, Repr

/-- Result of chown_chmod_keytab: C return value with capability state at
return, the resulting file state, events, out of bracket capability samples
and diagnostics. -/
structure ChownOut where
  res : Res (Nat × List Nat)
  file : FileSt
  evs : List Ev
  samples : List (List Nat)
  msgs : List String
deriving DecidableEq, Repr

/-- Lines 205 to 221 of init-kcron-keytab.c, inside chown_chmod_keytab: the
conditional ownership fix.  f1 is the file state after the chmod; the
condition compares the owner and group the fstat observed (unchanged by the
chmod) against the real uid and gid; when they differ the fchown runs
inside a fresh capability bracket. -/
def chown_bracket2 (e : ChownEnv) (f1 : FileSt) (uid gid : Nat)
    (caps2 : List Nat) : ChownOut :=
  if f1.uid ≠ uid ∨ f1.gid ≠ gid then
    match enable_capabilities e.en2 [CAP_CHOWN, CAP_DAC_OVERRIDE] caps2 with
    | .exit => ⟨.exit, f1, [], [], []⟩
    | .ok (r2, caps3) =>
      if r2 ≠ 0 then ⟨.ok (1, caps3), f1, [], [], ["Cannot enable capabilities."]⟩
      else if !e.fchownOk then
        match disable_capabilities e.dD caps3 with
        | .exit => ⟨.exit, f1, [], [], []⟩
        | .ok c => ⟨.ok (1, c), f1, [], [c], ["Unable to chown"]⟩
      else
        match disable_capabilities e.dE caps3 with
        | .exit => ⟨.exit, { f1 with uid := uid, gid := gid },
            [Ev.evFileChown uid gid], [], []⟩
        | .ok caps4 =>
          ⟨.ok (0, caps4), { f1 with uid := uid, gid := gid },
            [Ev.evFileChown uid gid], [caps4], []⟩
  else ⟨.ok (0, caps2), f1, [], [], []⟩

/-- Lines 192 to 223 of init-kcron-keytab.c, inside chown_chmod_keytab:
after the capability drop of line 190, the regular file check on the fstat
result, the unconditional chmod to 0600, and the conditional ownership
fix. -/
def chown_after (e : ChownEnv) (f : FileSt) (uid gid : Nat) (caps2 : List Nat) :
    ChownOut :=
  if !f.isReg then ⟨.ok (1, caps2), f, [], [], ["is not a regular file."]⟩
  else if !e.fchmodOk then
    match disable_capabilities e.dC caps2 with
    | .exit => ⟨.exit, f, [], [], []⟩
    | .ok c => ⟨.ok (1, c), f, [], [c], ["Unable to chmod"]⟩
  else
    let o := chown_bracket2 e { f with mode := mode0600 } uid gid caps2
    ⟨o.res, o.file, Ev.evFileChmod mode0600 :: o.evs, o.samples, o.msgs⟩

/-- Model of chown_chmod_keytab (init-kcron-keytab.c).

Confirms via the open handle that the target is a regular file, then
unconditionally chmods it to 0600 (outside any bracket: the process already
owns the descriptor), and chowns it to the real uid and gid only when the
observed owner or group differs, inside a fresh bracket.  The uid and gid
arguments are the values of getuid() and getgid(). -/
def chown_chmod_keytab (e : ChownEnv) (fd : Int) (f : FileSt) (uid gid : Nat)
    (caps0 : List Nat) : ChownOut :=
  if fd = 0 then ⟨.ok (1, caps0), f, [], [caps0], ["Invalid file."]⟩
  else
    match enable_capabilities e.en1 [CAP_CHOWN, CAP_DAC_OVERRIDE] caps0 with
    | .exit => ⟨.exit, f, [], [caps0], []⟩
    | .ok (r1, caps1) =>
      if r1 ≠ 0 then ⟨.ok (1, caps1), f, [], [caps0], ["Cannot enable capabilities."]⟩
      else if !e.fstatOk then
        match disable_capabilities e.dA caps1 with
        | .exit => ⟨.exit, f, [], [caps0], ["Cannot stat file."]⟩
        | .ok c => ⟨.ok (1, c), f, [], [caps0, c], ["Cannot stat file."]⟩
      else
        match disable_capabilities e.dB caps1 with
        | .exit => ⟨.exit, f, [], [caps0], []⟩
        | .ok caps2 =>
          let o := chown_after e f uid gid caps2
          ⟨o.res, o.file, o.evs, caps0 :: caps2 :: o.samples, o.msgs⟩

/-! ## init-kcron-keytab.c: create_keytab_file -/

/-- Outcomes of the calls made by create_keytab_file, in source order:
the CAP_DAC_OVERRIDE bracket, lstat of the directory, opendir, fstat of
the directory handle, openat of the keytab (fd is the descriptor an
successful openat returns), fstat of the file handle, then the nested
write_empty_keytab and chown_chmod_keytab environments.  The DisableEnv
fields follow the drop call sites: dA lstat failure, dB symlink branch,
dC opendir failure, dD directory fstat failure, dE the main drop after the
directory is verified, dF the not a directory branch, dG the file fstat
failure branch, dH the not a regular file branch. -/
structure CreateEnv where
  dirnameNull : Bool
  fnameNull : Bool
  ktNull : Bool
  en1 : EnableEnv
  lstatOk : Bool
  dA : DisableEnv
  lstatIsLnk : Bool
  dB : DisableEnv
  opendirOk : Bool
  dC : DisableEnv
  fstatDirOk : Bool
  dD : DisableEnv
  dE : DisableEnv
  fstatDirIsDir : Bool
  dF : DisableEnv
  openatOk : Bool
  fd : Int
  fstatFileOk : Bool
  dG : DisableEnv
  dH : DisableEnv
  we : WriteEnv
  ce : ChownEnv
deriving DecidableEq, Repr

/-- Result of create_keytab_file: C return value with capability state at
return, the state of the keytab file (none when no file exists at the
path), events, out of bracket capability samples and diagnostics. -/
structure CreateOut where
  res : Res (Nat × List Nat)
  file : Option FileSt
  evs : List Ev
  samples : List (List Nat)
  msgs : List String
deriving DecidableEq, Repr

/-- Lines 368 to 383 of init-kcron-keytab.c, inside create_keytab_file:
write the empty keytab header into the open file f, then set its ownership
and mode via chown_chmod_keytab.  caps2 is the capability state, already
dropped when the program reaches this point. -/
def create_write (e : CreateEnv) (ruid rgid : Nat) (f : FileSt)
    (caps2 : List Nat) : CreateOut :=
  match write_empty_keytab e.we e.fd f.content with
  | (.exit, c2, wevs) => ⟨.exit, some { f with content := c2 }, wevs, [], []⟩
  | (.ok rw, c2, wevs) =>
    let f1 : FileSt := { f with content := c2 }
    if rw ≠ 0 then
      ⟨.ok (1, caps2), some f1, wevs, [], ["Cannot create keytab."]⟩
    else
      let cc := chown_chmod_keytab e.ce e.fd f1 ruid rgid caps2
      match cc.res with
      | .exit => ⟨.exit, some cc.file, wevs ++ cc.evs, cc.samples, cc.msgs⟩
      | .ok (rc, caps3) =>
        if rc ≠ 0 then
          ⟨.ok (1, caps3), some cc.file, wevs ++ cc.evs, cc.samples,
            cc.msgs ++ ["Cannot set permissions on keytab."]⟩
        else ⟨.ok (0, caps3), some cc.file, wevs ++ cc.evs, cc.samples, cc.msgs⟩

/-- Lines 354 to 383 of init-kcron-keytab.c, inside create_keytab_file:
after openat succeeded with file state f, the regular file re verification
on the returned handle (fstat, then S_ISREG), then the write and ownership
phase. -/
def create_opened (e : CreateEnv) (ruid rgid : Nat) (f : FileSt)
    (caps2 : List Nat) : CreateOut :=
  if !e.fstatFileOk then
    match disable_capabilities e.dG caps2 with
    | .exit => ⟨.exit, some f, [Ev.evOpenFile mode0600], [], []⟩
    | .ok c =>
      ⟨.ok (1, c), some f, [Ev.evOpenFile mode0600], [c], ["could not be created."]⟩
  else if !f.isReg then
    match disable_capabilities e.dH caps2 with
    | .exit => ⟨.exit, some f, [Ev.evOpenFile mode0600], [], []⟩
    | .ok c =>
      ⟨.ok (1, c), some f, [Ev.evOpenFile mode0600], [c], ["is not a regular file."]⟩
  else
    let o := create_write e ruid rgid f caps2
    ⟨o.res, o.file, Ev.evOpenFile mode0600 :: o.evs, o.samples, o.msgs⟩

/-- Lines 335 to 351 of init-kcron-keytab.c, inside create_keytab_file: the
directory re verification on the open handle after the capability drop of
line 333, then the openat of the keytab with
O_WRONLY, O_CREAT, O_NOFOLLOW, O_CLOEXEC and mode 0600.  When no file
existed, openat creates one owned by the effective identity (euid, egid)
with mode 0600 and empty content; when one existed it is opened as is. -/
def create_verify (e : CreateEnv) (euid egid ruid rgid : Nat)
    (fileBefore : Option FileSt) (caps2 : List Nat) : CreateOut :=
  if !e.fstatDirIsDir then
    match disable_capabilities e.dF caps2 with
    | .exit => ⟨.exit, fileBefore, [], [], ["is not a directory."]⟩
    | .ok c => ⟨.ok (1, c), fileBefore, [], [c], ["is not a directory."]⟩
  else if !e.openatOk then
    ⟨.ok (1, caps2), fileBefore, [], [], ["is missing, cannot create:"]⟩
  else
    match fileBefore with
    | none => create_opened e ruid rgid ⟨true, mode0600, euid, egid, []⟩ caps2
    | some f0 => create_opened e ruid rgid f0 caps2

/-- Lines 304 to 383 of init-kcron-keytab.c, inside create_keytab_file: the
body of the CAP_DAC_OVERRIDE bracket (lstat of the directory rejecting
symlinks, opendir, fstat of the handle, the capability drop of line 333)
and everything after it.  caps1 is the capability state the bracket
established. -/
def create_bracket (e : CreateEnv) (euid egid ruid rgid : Nat)
    (fileBefore : Option FileSt) (caps1 : List Nat) : CreateOut :=
  if !e.lstatOk then
    match disable_capabilities e.dA caps1 with
    | .exit => ⟨.exit, fileBefore, [], [], ["does not exist."]⟩
    | .ok c => ⟨.ok (1, c), fileBefore, [], [c], ["does not exist."]⟩
  else if e.lstatIsLnk then
    match disable_capabilities e.dB caps1 with
    | .exit => ⟨.exit, fileBefore, [], [], ["is a symlink, not allowed."]⟩
    | .ok c => ⟨.ok (1, c), fileBefore, [], [c], ["is a symlink, not allowed."]⟩
  else if !e.opendirOk then
    match disable_capabilities e.dC caps1 with
    | .exit =>
      ⟨.exit, fileBefore, [], [],
        ["Unable to locate", "This may be a permissions error?"]⟩
    | .ok c =>
      ⟨.ok (1, c), fileBefore, [], [c],
        ["Unable to locate", "This may be a permissions error?"]⟩
  else if !e.fstatDirOk then
    match disable_capabilities e.dD caps1 with
    | .exit => ⟨.exit, fileBefore, [], [], ["could not be read."]⟩
    | .ok c => ⟨.ok (1, c), fileBefore, [], [c], ["could not be read."]⟩
  else
    match disable_capabilities e.dE caps1 with
    | .exit => ⟨.exit, fileBefore, [], [], []⟩
    | .ok caps2 =>
      let o := create_verify e euid egid ruid rgid fileBefore caps2
      ⟨o.res, o.file, o.evs, caps2 :: o.samples, o.msgs⟩

/-- Lines 281 to 302 of init-kcron-keytab.c, inside create_keytab_file: the
NULL argument checks and the opening of the CAP_DAC_OVERRIDE bracket around
the directory checks. -/
def create_keytab_file (e : CreateEnv) (euid egid ruid rgid : Nat)
    (fileBefore : Option FileSt) (caps0 : List Nat) : CreateOut :=
  if e.dirnameNull then
    ⟨.ok (1, caps0), fileBefore, [], [caps0], ["keytab_dirname pointer is NULL."]⟩
  else if e.fnameNull then
    ⟨.ok (1, caps0), fileBefore, [], [caps0], ["keytab_filename pointer is NULL."]⟩
  else if e.ktNull then
    ⟨.ok (1, caps0), fileBefore, [], [caps0], ["keytab pointer is NULL."]⟩
  else
    match enable_capabilities e.en1 [CAP_DAC_OVERRIDE] caps0 with
    | .exit => ⟨.exit, fileBefore, [], [caps0], []⟩
    | .ok (r1, caps1) =>
      if r1 ≠ 0 then
        ⟨.ok (1, caps1), fileBefore, [], [caps0], ["Cannot enable capabilities."]⟩
      else
        let o := create_bracket e euid egid ruid rgid fileBefore caps1
        ⟨o.res, o.file, o.evs, caps0 :: o.samples, o.msgs⟩

/-! ## init-kcron-keytab.c: validate_client_dirname and main -/

/-- Outcomes of the lstat and stat calls validate_client_dirname makes on
the configured base directory. -/
structure ValidateEnv where
  lstatOk : Bool
  lstatIsLnk : Bool
  statOk : Bool
deriving DecidableEq, Repr

/-- Model of validate_client_dirname (init-kcron-keytab.c): symlink check by
lstat (without following) on the configured base directory before stat; a
missing path, a symlink, or a failing stat each fail with return value 1
and a diagnostic; no filesystem effect is performed. -/
def validate_client_dirname (e : ValidateEnv) (dirNull : Bool) : Nat × List String :=
  if dirNull then (1, ["Client keytab directory pointer is NULL."])
  else if !e.lstatOk then
    (1, ["Client keytab directory does not exist.",
         "Contact your admin to have it created correctly."])
  else if e.lstatIsLnk then
    (1, ["Client keytab directory is a symlink, not allowed."])
  else if !e.statOk then
    (1, ["Client keytab directory does not exist.",
         "Contact your admin to have it created."])
  else (0, [])

/-- Outcomes of everything main does directly: buffer allocation, the
compile time configuration (B, maxLen, unameMax), the real and effective
identities, the ValidateEnv for the base directory, the MkdirEnv for the
per user directory, the CAP_DAC_OVERRIDE bracket around the stat of the
keytab path (enM, dM) and the CreateEnv for the keytab file. -/
structure MainEnv where
  allocOk : Bool
  B : String
  maxLen : Nat
  unameMax : Nat
  ruid : Nat
  rgid : Nat
  euid : Nat
  egid : Nat
  val : ValidateEnv
  mke : MkdirEnv
  enM : EnableEnv
  dM : DisableEnv
  ck : CreateEnv
deriving Repr

/-- Result of a full initializer run: the process exit status (0 is
EXIT_SUCCESS, 1 is EXIT_FAILURE, whether from main or from exit inside a
callee), what was printed to stdout, the final keytab file state, the
filesystem events, the out of bracket capability samples and the stderr
diagnostics. -/
structure MainOut where
  code : Nat
  printed : Option String
  file : Option FileSt
  evs : List Ev
  samples : List (List Nat)
  msgs : List String
deriving DecidableEq, Repr

/-- Lines 435 to 458 of init-kcron-keytab.c, inside main: the
CAP_DAC_OVERRIDE bracket around the stat of the full keytab path, the
conditional creation of the keytab when the stat failed (the path is
missing), the final printf of the path and exit.  kt is the full keytab
path and caps1 the capability state after mkdir_if_missing returned. -/
def main_stat_phase (e : MainEnv) (kt : String) (fileBefore : Option FileSt)
    (caps1 : List Nat) : MainOut :=
  match enable_capabilities e.enM [CAP_DAC_OVERRIDE] caps1 with
  | .exit => ⟨1, none, fileBefore, [], [], []⟩
  | .ok (rE, caps2) =>
    if rE ≠ 0 then ⟨1, none, fileBefore, [], [], ["Cannot enable capabilities."]⟩
    else
      match disable_capabilities e.dM caps2 with
      | .exit => ⟨1, none, fileBefore, [], [], []⟩
      | .ok caps3 =>
        if fileBefore.isNone then
          let co := create_keytab_file e.ck e.euid e.egid e.ruid e.rgid
            fileBefore caps3
          match co.res with
          | .exit => ⟨1, none, co.file, co.evs, caps3 :: co.samples, co.msgs⟩
          | .ok (rC, _caps4) =>
            if rC ≠ 0 then
              ⟨1, none, co.file, co.evs, caps3 :: co.samples, co.msgs⟩
            else ⟨0, some kt, co.file, co.evs, caps3 :: co.samples, co.msgs⟩
        else ⟨0, some kt, fileBefore, [], [caps3], []⟩

/-- Model of main (init-kcron-keytab.c).

Derives the paths, validates the configured base directory, ensures the per
user directory exists, and creates the keytab file only when the stat of
the full keytab path fails; when the path already exists the run prints it
and exits 0 without touching the file.  fileBefore is the state of the
keytab path when the run starts (none when no file exists) and caps0 the
capability state main starts with (empty after harden_runtime). -/
def kcron_main (e : MainEnv) (fileBefore : Option FileSt) (caps0 : List Nat) :
    MainOut :=
  if !e.allocOk then
    ⟨1, none, fileBefore, [], [caps0], ["Unable to allocate memory."]⟩
  else
    match get_client_dirname e.B e.maxLen with
    | .exit => ⟨1, none, fileBefore, [], [caps0], []⟩
    | .ok (rB, _cdir) =>
      if rB ≠ 0 then
        ⟨1, none, fileBefore, [], [caps0], ["Client keytab directory not set."]⟩
      else
        match validate_client_dirname e.val false with
        | (rv, vmsgs) =>
          if rv ≠ 0 then ⟨1, none, fileBefore, [], [caps0], vmsgs⟩
          else
            match get_filenames e.B e.ruid e.maxLen e.unameMax with
            | .exit => ⟨1, none, fileBefore, [], [caps0], []⟩
            | .ok (rF, _dir, _fname, kt) =>
              if rF ≠ 0 then
                ⟨1, none, fileBefore, [], [caps0],
                  ["Cannot determine keytab filename."]⟩
              else
                let mo := mkdir_if_missing e.mke mode0700 e.ruid e.rgid caps0
                match mo.res with
                | .exit =>
                  ⟨1, none, fileBefore, mo.evs, caps0 :: mo.samples, mo.msgs⟩
                | .ok (rM, caps1) =>
                  if rM ≠ 0 then
                    ⟨1, none, fileBefore, mo.evs, caps0 :: mo.samples,
                      mo.msgs ++ ["Cannot make dir"]⟩
                  else
                    let o := main_stat_phase e kt fileBefore caps1
                    ⟨o.code, o.printed, o.file, mo.evs ++ o.evs,
                      caps0 :: (mo.samples ++ o.samples), mo.msgs ++ o.msgs⟩

/-! ## kcron_setup.h, kcron_landlock.h, kcron_seccomp.h: hardening pipeline -/

/-- The hardening stages harden_runtime performs, in source order. -/
inductive Stage where
  | stdinNull
  | coreDump
  | noNewPrivs
  | clearEnv
  | rlimits
  | landlock
  | seccomp
  | capDrop
deriving DecidableEq, Repr

/-- Outcomes of the eight setrlimit calls made by set_kcron_ulimits, in
source order: RLIMIT_NPROC, RLIMIT_FSIZE, RLIMIT_MEMLOCK, RLIMIT_MSGQUEUE,
RLIMIT_STACK, RLIMIT_NOFILE, RLIMIT_CPU, RLIMIT_DATA. -/
structure UlimitEnv where
  nprocOk : Bool
  fsizeOk : Bool
  memlockOk : Bool
  msgqueueOk : Bool
  stackOk : Bool
  nofileOk : Bool
  cpuOk : Bool
  dataOk : Bool
deriving DecidableEq, Repr

/-- Model of set_kcron_ulimits (kcron_setup.h): eight setrlimit calls in a
fixed order; the first failure returns 1, success returns 0.  This is the
one hardening helper that reports failure by return value instead of
exiting itself. -/
def set_kcron_ulimits (e : UlimitEnv) : Nat :=
  if !e.nprocOk then 1
  else if !e.fsizeOk then 1
  else if !e.memlockOk then 1
  else if !e.msgqueueOk then 1
  else if !e.stackOk then 1
  else if !e.nofileOk then 1
  else if !e.cpuOk then 1
  else if !e.dataOk then 1
  else 0

/-- Outcomes of the calls made by set_kcron_landlock: the detected landlock
ABI version (0 or below means the kernel has no landlock support), the
allocation, ruleset creation, strdup, parent directory open, add rule and
restrict self steps.  The ruleset flag accumulation per ABI version is not
modelled; no claim depends on the flag values. -/
structure LandlockEnv where
  abi : Int
  allocOk : Bool
  createOk : Bool
  strdupOk : Bool
  openParentOk : Bool
  addRuleOk : Bool
  restrictOk : Bool
deriving DecidableEq, Repr

/-- Model of set_kcron_landlock (kcron_landlock.h).

Probes the landlock ABI version; absence of kernel support (version 0 or
below) returns gracefully without installing anything; once support is
detected, every further failure exits.  Returns whether the filesystem
scoping ruleset was installed.  The base directory length guard of the
embedded get_client_dirname call is part of the modelled success path. -/
def set_kcron_landlock (e : LandlockEnv) (B : String) (maxLen : Nat) : Res Bool :=
  if e.abi ≤ 0 then .ok false
  else if !e.allocOk then .exit
  else
    match get_client_dirname B maxLen with
    | .exit => .exit
    | .ok _ =>
      if !e.createOk then .exit
      else if !e.strdupOk then .exit
      else if !e.openParentOk then .exit
      else if !e.addRuleOk then .exit
      else if !e.restrictOk then .exit
      else .ok true

/-- Outcomes of the calls made by set_kcron_seccomp: seccomp_init, the 21
seccomp_rule_add calls (indexed 0 to 20 in source order, from rt_sigreturn
to capset) and seccomp_load. -/
structure SeccompEnv where
  initOk : Bool
  ruleOk : Nat → Bool
  loadOk : Bool

/-- Model of set_kcron_seccomp (kcron_seccomp.h): creates a kill by default
filter context, adds the 21 allowlist rules, and loads the filter; every
failure exits, so the function returns only 0. -/
def set_kcron_seccomp (e : SeccompEnv) : Res Nat :=
  if !e.initOk then .exit
  else if !((List.range 21).all e.ruleOk) then .exit
  else if !e.loadOk then .exit
  else .ok 0

/-- Outcomes of the calls made directly by harden_runtime: freopen of stdin
to /dev/null, the two prctl calls (PR_SET_DUMPABLE and PR_SET_NO_NEW_PRIVS),
clearenv, the UlimitEnv, the compile time toggles USE_LANDLOCK and
USE_SECCOMP with their environments, and the final capability drop. -/
structure HardenEnv where
  freopenOk : Bool
  dumpableOk : Bool
  noNewPrivsOk : Bool
  clearenvOk : Bool
  ul : UlimitEnv
  useLandlock : Bool
  ll : LandlockEnv
  useSeccomp : Bool
  sc : SeccompEnv
  dCaps : DisableEnv
  B : String
  maxLen : Nat

/-- Model of harden_runtime (kcron_setup.h).

Runs the hardening stages once, in the fixed source order, and exits on any
stage failure: stdin redirection, core dump disable, no new privileges,
environment clearing, resource limits, then landlock (when compiled in and
supported by the kernel), then seccomp (when compiled in), and the
unconditional capability drop last.  Returns the list of stages performed. -/
def harden_runtime (e : HardenEnv) : Res (List Stage) :=
  if !e.freopenOk then .exit
  else if !e.dumpableOk then .exit
  else if !e.noNewPrivsOk then .exit
  else if !e.clearenvOk then .exit
  else if set_kcron_ulimits e.ul ≠ 0 then .exit
  else
    let pre : List Stage := [.stdinNull, .coreDump, .noNewPrivs, .clearEnv, .rlimits]
    let afterLandlock : Res (List Stage) :=
      if e.useLandlock then
        match set_kcron_landlock e.ll e.B e.maxLen with
        | .exit => .exit
        | .ok installed => .ok (pre ++ if installed then [.landlock] else [])
      else .ok pre
    match afterLandlock with
    | .exit => .exit
    | .ok l1 =>
      let afterSeccomp : Res (List Stage) :=
        if e.useSeccomp then
          match set_kcron_seccomp e.sc with
          | .exit => .exit
          | .ok r => if r ≠ 0 then .exit else .ok (l1 ++ [.seccomp])
        else .ok l1
      match afterSeccomp with
      | .exit => .exit
      | .ok l2 =>
        match disable_capabilities e.dCaps [] with
        | .exit => .exit
        | .ok _ => .ok (l2 ++ [.capDrop])

/-- Model of the whole process image of init-kcron-keytab: the ELF
constructor runs harden_runtime before main is entered (the constructor
attribute on constructor() in init-kcron-keytab.c), so the process trace is
the hardening stages followed by the filesystem events of main, and a
hardening failure terminates the process before any application logic. -/
def runProcess (he : HardenEnv) (me : MainEnv) (fileBefore : Option FileSt) :
    Nat × List (Stage ⊕ Ev) :=
  match harden_runtime he with
  | .exit => (1, [])
  | .ok stages =>
    let m := kcron_main me fileBefore []
    (m.code, stages.map Sum.inl ++ m.evs.map Sum.inr)

/-- The stage list the specification prescribes for the hardening pipeline:
the five unconditional preparation stages, then filesystem scoping when
compiled in and supported, then the syscall allowlist when compiled in,
then the capability drop last.  Stated from the specification for
comparison with the list harden_runtime actually produces. -/
def specStages (useLandlock : Bool) (landlockSupported : Bool) (useSeccomp : Bool) :
    List Stage :=
  [.stdinNull, .coreDump, .noNewPrivs, .clearEnv, .rlimits]
    ++ (if useLandlock && landlockSupported then [.landlock] else [])
    ++ (if useSeccomp then [.seccomp] else [])
    ++ [.capDrop]


/-! ## Concrete environments used by the witnesses -/

/-- An environment where all three libcap calls of disable_capabilities
succeed. -/
def disableOkEnv : DisableEnv := ⟨true, true, true⟩

/-- An environment where every libcap call of enable_capabilities
succeeds. -/
def enableOkEnv : EnableEnv := ⟨true, disableOkEnv, true, true, true, true⟩

/-- A mkdir_if_missing environment where the directory is missing and every
system call succeeds, so the directory is created and chowned. -/
def mkdirOkEnv : MkdirEnv :=
  ⟨false, false, false, false, false, enableOkEnv, true, disableOkEnv, true,
   disableOkEnv, true, disableOkEnv, disableOkEnv, true, disableOkEnv,
   enableOkEnv, true, disableOkEnv, disableOkEnv⟩

/-- A mkdir_if_missing environment where the path already exists as a
directory. -/
def mkdirExistsEnv : MkdirEnv :=
  { mkdirOkEnv with lstatOk := true, statOk := true, statIsDir := true }

/-- A write_empty_keytab environment where both writes report one byte and
the fsync succeeds. -/
def writeOkEnv : WriteEnv := ⟨some 1, some 1, true⟩

/-- A chown_chmod_keytab environment where every system call succeeds. -/
def chownOkEnv : ChownEnv :=
  ⟨enableOkEnv, true, disableOkEnv, disableOkEnv, true, disableOkEnv,
   enableOkEnv, true, disableOkEnv, disableOkEnv⟩

/-- A create_keytab_file environment where every system call succeeds and
openat returns descriptor 4. -/
def createOkEnv : CreateEnv :=
  ⟨false, false, false, enableOkEnv, true, disableOkEnv, false, disableOkEnv,
   true, disableOkEnv, true, disableOkEnv, disableOkEnv, true, disableOkEnv,
   true, 4, true, disableOkEnv, disableOkEnv, writeOkEnv, chownOkEnv⟩

/-- A validate_client_dirname environment where the base directory exists
and is not a symlink. -/
def validateOkEnv : ValidateEnv := ⟨true, false, true⟩

/-- A main environment where the configuration is /var/kcron with generous
bounds, the caller is 1001:1001, the effective identity is root, and every
system call succeeds. -/
def mainOkEnv : MainEnv :=
  ⟨true, "/var/kcron", 100, 33, 1001, 1001, 0, 0, validateOkEnv, mkdirOkEnv,
   enableOkEnv, disableOkEnv, createOkEnv⟩

/-- An ulimit environment where all eight setrlimit calls succeed. -/
def ulimitOkEnv : UlimitEnv := ⟨true, true, true, true, true, true, true, true⟩

/-- A landlock environment where the kernel reports ABI version 3 and every
setup call succeeds. -/
def landlockOkEnv : LandlockEnv := ⟨3, true, true, true, true, true, true⟩

/-- A seccomp environment where every filter call succeeds. -/
def seccompOkEnv : SeccompEnv := ⟨true, fun _ => true, true⟩

/-- A harden_runtime environment where every stage succeeds, with landlock
and seccomp both compiled in. -/
def hardenOkEnv : HardenEnv :=
  ⟨true, true, true, true, ulimitOkEnv, true, landlockOkEnv, true,
   seccompOkEnv, disableOkEnv, "/var/kcron", 100⟩

/-! ## Helper lemmas -/

theorem disable_ok_iff (e : DisableEnv) (c x : List Nat) :
    disable_capabilities e c = .ok x ↔
      (e.getProcOk = true ∧ e.clearOk = true ∧ e.setProcOk = true ∧ x = []) := by
  unfold disable_capabilities
  split_ifs <;> simp_all

theorem enable_ok_iff (e : EnableEnv) (l c : List Nat) (p : Nat × List Nat) :
    enable_capabilities e l c = .ok p ↔
      (l ≠ [] ∧ e.getProc1Ok = true ∧ e.dis.getProcOk = true ∧ e.dis.clearOk = true ∧
       e.dis.setProcOk = true ∧ e.getProc2Ok = true ∧ e.setFlagPermittedOk = true ∧
       e.setFlagEffectiveOk = true ∧ e.setProcOk = true ∧ p = (0, l)) := by
  unfold enable_capabilities disable_capabilities
  split_ifs <;> simp_all
  exact eq_comm

theorem disable_exit_of_fail (e : DisableEnv) (c : List Nat)
    (h : e.getProcOk = false ∨ e.clearOk = false ∨ e.setProcOk = false) :
    disable_capabilities e c = .exit := by
  unfold disable_capabilities
  rcases h with h | h | h <;> simp_all <;> split_ifs <;> simp_all

theorem mkdir_bracket2_inv (e : MkdirEnv) (o g : Nat) (caps2 : List Nat) :
    (∀ s ∈ (mkdir_bracket2 e o g caps2).samples, s = []) ∧
    (∀ r c, (mkdir_bracket2 e o g caps2).res = .ok (r, c) → c = []) := by
  unfold mkdir_bracket2
  repeat' split
  all_goals simp_all [enable_ok_iff, disable_ok_iff]

theorem mkdir_verify_inv (e : MkdirEnv) (o g : Nat) (caps2 : List Nat) :
    (∀ s ∈ (mkdir_verify e o g caps2).samples, s = []) ∧
    (∀ r c, (mkdir_verify e o g caps2).res = .ok (r, c) → c = []) := by
  unfold mkdir_verify
  repeat' split
  all_goals try simp_all [disable_ok_iff]
  all_goals exact mkdir_bracket2_inv e o g caps2

theorem mkdir_bracket1_inv (e : MkdirEnv) (m o g : Nat) (caps1 : List Nat) :
    (∀ s ∈ (mkdir_bracket1 e m o g caps1).samples, s = []) ∧
    (∀ r c, (mkdir_bracket1 e m o g caps1).res = .ok (r, c) → c = []) := by
  unfold mkdir_bracket1
  repeat' split
  all_goals try simp_all [disable_ok_iff]
  all_goals exact mkdir_verify_inv e o g []

theorem mkdir_inv (e : MkdirEnv) (m o g : Nat) :
    (∀ s ∈ (mkdir_if_missing e m o g []).samples, s = []) ∧
    (∀ r c, (mkdir_if_missing e m o g []).res = .ok (r, c) → c = []) := by
  unfold mkdir_if_missing
  repeat' split
  all_goals try simp_all [enable_ok_iff]
  all_goals exact mkdir_bracket1_inv e m o g [CAP_CHOWN, CAP_DAC_OVERRIDE]

theorem chown_bracket2_inv (e : ChownEnv) (f1 : FileSt) (uid gid : Nat) :
    (∀ s ∈ (chown_bracket2 e f1 uid gid []).samples, s = []) ∧
    (∀ r c, (chown_bracket2 e f1 uid gid []).res = .ok (r, c) → c = []) := by
  unfold chown_bracket2
  repeat' split
  all_goals simp_all [enable_ok_iff, disable_ok_iff]

theorem chown_after_inv (e : ChownEnv) (f : FileSt) (uid gid : Nat) :
    (∀ s ∈ (chown_after e f uid gid []).samples, s = []) ∧
    (∀ r c, (chown_after e f uid gid []).res = .ok (r, c) → c = []) := by
  unfold chown_after
  repeat' split
  all_goals try simp_all [disable_ok_iff]
  all_goals exact chown_bracket2_inv e ⟨true, mode0600, f.uid, f.gid, f.content⟩ uid gid

theorem chown_inv (e : ChownEnv) (fd : Int) (f : FileSt) (uid gid : Nat) :
    (∀ s ∈ (chown_chmod_keytab e fd f uid gid []).samples, s = []) ∧
    (∀ r c, (chown_chmod_keytab e fd f uid gid []).res = .ok (r, c) → c = []) := by
  unfold chown_chmod_keytab
  repeat' split
  all_goals try simp_all [enable_ok_iff, disable_ok_iff]
  all_goals exact chown_after_inv e f uid gid
theorem write_ok_iff (e : WriteEnv) (fd : Int) (content : List Nat) (r : Nat)
    (c : List Nat) (evs : List Ev) :
    write_empty_keytab e fd content = (.ok r, c, evs) ↔
      (¬ fd < 0 ∧ fd ≠ 0 ∧ fd ≠ 1 ∧ fd ≠ 2 ∧ e.w1 = some 1 ∧ e.w2 = some 1 ∧
       e.fsyncOk = true ∧ r = 0 ∧ c = content ++ [0x05, 0x02] ∧
       evs = [.evFileWrite 0x05, .evFileWrite 0x02, .evFsync]) := by
  unfold write_empty_keytab
  split_ifs <;> simp_all <;>
    try (constructor <;> rintro ⟨rfl, rfl, rfl⟩ <;> exact ⟨rfl, rfl, rfl⟩)

theorem create_write_inv (e : CreateEnv) (ruid rgid : Nat) (f : FileSt) :
    (∀ s ∈ (create_write e ruid rgid f []).samples, s = []) ∧
    (∀ r c, (create_write e ruid rgid f []).res = .ok (r, c) → c = []) := by
  unfold create_write
  rcases hw : write_empty_keytab e.we e.fd f.content with ⟨rw, c2, wevs⟩
  rcases rw with _ | r0
  · simp [hw]
  · obtain ⟨-, -, -, -, -, -, -, hr0, hc2, hevs⟩ :=
      (write_ok_iff e.we e.fd f.content r0 c2 wevs).mp hw
    subst hr0 hc2 hevs
    obtain ⟨h1, h2⟩ :=
      chown_inv e.ce e.fd { f with content := f.content ++ [0x05, 0x02] } ruid rgid
    simp only [hw]
    rcases hcc : (chown_chmod_keytab e.ce e.fd
        { f with content := f.content ++ [0x05, 0x02] } ruid rgid []).res
      with _ | ⟨rc, caps3⟩
    · simp [hcc]
      exact h1
    · have h3 := h2 rc caps3 hcc
      subst h3
      simp only [hcc]
      split_ifs <;> simp_all <;> try exact h1
theorem create_opened_inv (e : CreateEnv) (ruid rgid : Nat) (f : FileSt) :
    (∀ s ∈ (create_opened e ruid rgid f []).samples, s = []) ∧
    (∀ r c, (create_opened e ruid rgid f []).res = .ok (r, c) → c = []) := by
  unfold create_opened
  repeat' split
  all_goals try simp_all [disable_ok_iff]
  all_goals exact create_write_inv e ruid rgid f

theorem create_verify_inv (e : CreateEnv) (euid egid ruid rgid : Nat)
    (fb : Option FileSt) :
    (∀ s ∈ (create_verify e euid egid ruid rgid fb []).samples, s = []) ∧
    (∀ r c, (create_verify e euid egid ruid rgid fb []).res = .ok (r, c) → c = []) := by
  rcases fb with _ | f0 <;> unfold create_verify <;> repeat' split
  all_goals try simp_all [disable_ok_iff]
  all_goals try exact create_opened_inv e ruid rgid ⟨true, mode0600, euid, egid, []⟩
  all_goals (rename_i hq; subst hq; exact create_opened_inv e ruid rgid f0)

set_option maxHeartbeats 1000000 in
theorem create_bracket_inv (e : CreateEnv) (euid egid ruid rgid : Nat)
    (fb : Option FileSt) (caps1 : List Nat) :
    (∀ s ∈ (create_bracket e euid egid ruid rgid fb caps1).samples, s = []) ∧
    (∀ r c, (create_bracket e euid egid ruid rgid fb caps1).res = .ok (r, c) → c = []) := by
  unfold create_bracket
  repeat' split
  all_goals try simp_all [disable_ok_iff]
  all_goals exact create_verify_inv e euid egid ruid rgid fb

set_option maxHeartbeats 1000000 in
theorem create_inv (e : CreateEnv) (euid egid ruid rgid : Nat) (fb : Option FileSt) :
    (∀ s ∈ (create_keytab_file e euid egid ruid rgid fb []).samples, s = []) ∧
    (∀ r c, (create_keytab_file e euid egid ruid rgid fb []).res = .ok (r, c) → c = []) := by
  unfold create_keytab_file
  repeat' split
  all_goals try simp_all [enable_ok_iff]
  all_goals exact create_bracket_inv e euid egid ruid rgid fb [CAP_DAC_OVERRIDE]

set_option maxHeartbeats 1000000 in
theorem main_stat_inv (e : MainEnv) (kt : String) (fb : Option FileSt)
    (caps1 : List Nat) :
    ∀ s ∈ (main_stat_phase e kt fb caps1).samples, s = [] := by
  unfold main_stat_phase
  repeat' split
  all_goals try simp_all [enable_ok_iff, disable_ok_iff]
  obtain ⟨h1, h2⟩ := create_inv e.ck e.euid e.egid e.ruid e.rgid none
  rcases hres : (create_keytab_file e.ck e.euid e.egid e.ruid e.rgid none []).res
    with _ | ⟨rC, c4⟩
  · simp [hres]
    exact h1
  · have h4 := h2 rC c4 hres
    subst h4
    simp only [hres]
    split_ifs <;> simp_all <;> try exact h1
set_option maxHeartbeats 1000000 in
theorem kcron_main_inv (e : MainEnv) (fb : Option FileSt) :
    ∀ s ∈ (kcron_main e fb []).samples, s = [] := by
  unfold kcron_main
  repeat' split
  all_goals try simp_all
  obtain ⟨hm1, hm2⟩ := mkdir_inv e.mke mode0700 e.ruid e.rgid
  rcases hmo : (mkdir_if_missing e.mke mode0700 e.ruid e.rgid []).res
    with _ | ⟨rM, caps1⟩
  · simp only [hmo]
    intro s hs
    rcases List.mem_cons.mp hs with rfl | hs2
    · rfl
    · exact hm1 s hs2
  · have hc1 := hm2 rM caps1 hmo
    subst hc1
    simp only [hmo]
    split_ifs
    · intro s hs
      rcases List.mem_cons.mp hs with rfl | hs2
      · rfl
      · rcases List.mem_append.mp hs2 with h | h
        · exact hm1 s h
        · exact main_stat_inv e _ fb [] s h
    · intro s hs
      rcases List.mem_cons.mp hs with rfl | hs2
      · rfl
      · exact hm1 s hs2

/-! ## Claim theorems -/

/-- C1: at every reachable point of the initializer execution outside an
active capability bracket — function entry, after every successful
capability drop, and every normal return — the process effective and
permitted capability state is empty; every error path inside a bracket
clears capabilities before returning (every normal return of every modelled
function carries the empty capability set, over all syscall outcome
environments); and a failing disable_capabilities terminates the process. -/
theorem c1_privilege_invariant :
    (∀ (d : DisableEnv) (c : List Nat),
       (d.getProcOk = false ∨ d.clearOk = false ∨ d.setProcOk = false) →
       disable_capabilities d c = .exit) ∧
    (∀ (d : DisableEnv) (c x : List Nat),
       disable_capabilities d c = .ok x → x = []) ∧
    (∀ (e : MkdirEnv) (m o g : Nat),
       (∀ s ∈ (mkdir_if_missing e m o g []).samples, s = []) ∧
       ∀ r c, (mkdir_if_missing e m o g []).res = .ok (r, c) → c = []) ∧
    (∀ (e : ChownEnv) (fd : Int) (f : FileSt) (uid gid : Nat),
       (∀ s ∈ (chown_chmod_keytab e fd f uid gid []).samples, s = []) ∧
       ∀ r c, (chown_chmod_keytab e fd f uid gid []).res = .ok (r, c) → c = []) ∧
    (∀ (e : CreateEnv) (euid egid ruid rgid : Nat) (fb : Option FileSt),
       (∀ s ∈ (create_keytab_file e euid egid ruid rgid fb []).samples, s = []) ∧
       ∀ r c, (create_keytab_file e euid egid ruid rgid fb []).res = .ok (r, c) → c = []) ∧
    (∀ (e : MainEnv) (fb : Option FileSt),
       ∀ s ∈ (kcron_main e fb []).samples, s = []) :=
  ⟨fun d c h => disable_exit_of_fail d c h,
   fun d c x h => ((disable_ok_iff d c x).mp h).2.2.2,
   fun e m o g => mkdir_inv e m o g,
   fun e fd f uid gid => chown_inv e fd f uid gid,
   fun e a b c d fb => create_inv e a b c d fb,
   fun e fb => kcron_main_inv e fb⟩

/-- Witness for C1 at concrete inputs: a disable_capabilities whose
cap_get_proc fails exits the process; a successful disable returns the
empty set; and the successful mkdir_if_missing run returns with the empty
capability set. -/
theorem c1_privilege_invariant_witness :
    disable_capabilities ⟨false, true, true⟩ [CAP_CHOWN, CAP_DAC_OVERRIDE] = .exit ∧
    ([] : List Nat) = [] ∧
    ([] : List Nat) = [] :=
  ⟨c1_privilege_invariant.1 ⟨false, true, true⟩ [CAP_CHOWN, CAP_DAC_OVERRIDE]
      (Or.inl rfl),
   c1_privilege_invariant.2.1 disableOkEnv [CAP_CHOWN] [] (by decide),
   (c1_privilege_invariant.2.2.1 mkdirOkEnv mode0700 1001 1001).2 0 [] (by decide)⟩

/-- C3: on every successful run, get_filenames yields the per user
directory exactly B/decimal(U), the file name exactly client.keytab, and
the full path exactly B/decimal(U)/client.keytab, from the numeric uid
alone. -/
theorem c3_get_filenames_exact (B : String) (U maxLen unameMax : Nat) (r : Nat)
    (d f k : String)
    (h : get_filenames B U maxLen unameMax = .ok (r, d, f, k)) :
    d = B ++ "/" ++ Nat.repr U ∧ f = "client.keytab" ∧
      k = B ++ "/" ++ Nat.repr U ++ "/client.keytab" := by
  simp only [get_filenames] at h
  split_ifs at h
  simp only [Res.ok.injEq, Prod.mk.injEq] at h
  obtain ⟨hr, hd, hf, hk⟩ := h
  subst hd hf hk
  refine ⟨rfl, rfl, ?_⟩
  simp [String.append_assoc]

/-- Witness for C3 at B = /var/kcron, U = 1001. -/
theorem c3_get_filenames_exact_witness :
    "/var/kcron/1001" = "/var/kcron" ++ "/" ++ Nat.repr 1001 ∧
    "client.keytab" = "client.keytab" ∧
    "/var/kcron/1001/client.keytab" =
      "/var/kcron" ++ "/" ++ Nat.repr 1001 ++ "/client.keytab" :=
  c3_get_filenames_exact "/var/kcron" 1001 100 33 0 "/var/kcron/1001"
    "client.keytab" "/var/kcron/1001/client.keytab" (by decide)

/-- C8 counterexample: with an empty configured base directory the
derivation succeeds (returning the empty string) instead of failing, so
the claim that it never succeeds when the base directory is empty is false
on the code. -/
theorem c8_counterexample : get_client_dirname "" 100 = .ok (0, "") := by decide

/-- C8 amended: get_client_dirname fails (exits, never truncating) exactly
when the configured base directory does not fit the fixed maximum path
length, and on success the output holds the configured constant exactly;
an empty constant is copied successfully, and an unset constant is a
compile time error rather than a runtime failure. -/
theorem c8_get_client_dirname_amended (B : String) (maxLen : Nat) :
    (maxLen ≤ B.length → get_client_dirname B maxLen = .exit) ∧
    (B.length < maxLen → get_client_dirname B maxLen = .ok (0, B)) := by
  constructor
  · intro h
    simp [get_client_dirname, h]
  · intro h
    simp [get_client_dirname, Nat.not_le.mpr h]

/-- Witness for the amended C8: an oversized base directory exits, a
fitting one is returned exactly. -/
theorem c8_get_client_dirname_amended_witness :
    get_client_dirname "/var/kcron" 5 = .exit ∧
    get_client_dirname "/var/kcron" 100 = .ok (0, "/var/kcron") :=
  ⟨(c8_get_client_dirname_amended "/var/kcron" 5).1 (by decide),
   (c8_get_client_dirname_amended "/var/kcron" 100).2 (by decide)⟩

/-- C4: a successful write_empty_keytab run requires a descriptor of at
least 3, both single byte writes reporting exactly one byte and a
successful fsync; it appends exactly the bytes 0x05 then 0x02 to the file
(a fresh file therefore holds exactly those two bytes), performs exactly
the two write attempts followed by the fsync with nothing retried, and any
short write, write error or sync failure makes the call exit instead of
returning. -/
theorem c4_write_empty_keytab_exact (e : WriteEnv) (fd : Int) (content : List Nat) :
    (∀ r c evs, write_empty_keytab e fd content = (.ok r, c, evs) →
       r = 0 ∧ 3 ≤ fd ∧ e.w1 = some 1 ∧ e.w2 = some 1 ∧ e.fsyncOk = true ∧
       c = content ++ [0x05, 0x02] ∧
       evs = [.evFileWrite 0x05, .evFileWrite 0x02, .evFsync]) ∧
    ((e.w1 ≠ some 1 ∨ e.w2 ≠ some 1 ∨ e.fsyncOk = false) →
       (write_empty_keytab e fd content).1 = .exit) := by
  constructor
  · intro r c evs h
    obtain ⟨h0, h1, h2, h3, hw1, hw2, hf, hr, hc, he⟩ :=
      (write_ok_iff e fd content r c evs).mp h
    exact ⟨hr, by omega, hw1, hw2, hf, hc, he⟩
  · intro h
    rcases hw : write_empty_keytab e fd content with ⟨rw, c2, wevs⟩
    rcases rw with _ | r0
    · rfl
    · obtain ⟨-, -, -, -, hw1, hw2, hf, -, -, -⟩ :=
        (write_ok_iff e fd content r0 c2 wevs).mp hw
      rcases h with h | h | h <;> simp_all

/-- Witness for C4: the all success environment on descriptor 4 and a
fresh file yields exactly the two byte header, and a failing first write
exits. -/
theorem c4_write_empty_keytab_exact_witness :
    (0 = 0 ∧ (3 : Int) ≤ 4 ∧ writeOkEnv.w1 = some 1 ∧ writeOkEnv.w2 = some 1 ∧
      writeOkEnv.fsyncOk = true ∧
      ([0x05, 0x02] : List Nat) = [] ++ [0x05, 0x02] ∧
      ([Ev.evFileWrite 0x05, Ev.evFileWrite 0x02, Ev.evFsync] : List Ev) =
        [Ev.evFileWrite 0x05, Ev.evFileWrite 0x02, Ev.evFsync]) ∧
    (write_empty_keytab ⟨none, some 1, true⟩ 4 []).1 = Res.exit :=
  ⟨(c4_write_empty_keytab_exact writeOkEnv 4 []).1 0 [0x05, 0x02]
      [Ev.evFileWrite 0x05, Ev.evFileWrite 0x02, Ev.evFsync] (by decide),
   (c4_write_empty_keytab_exact ⟨none, some 1, true⟩ 4 []).2 (Or.inl (by decide))⟩

theorem ulimits_zero_iff (e : UlimitEnv) :
    set_kcron_ulimits e = 0 ↔
      (e.nprocOk = true ∧ e.fsizeOk = true ∧ e.memlockOk = true ∧
       e.msgqueueOk = true ∧ e.stackOk = true ∧ e.nofileOk = true ∧
       e.cpuOk = true ∧ e.dataOk = true) := by
  unfold set_kcron_ulimits
  split_ifs <;> simp_all

theorem landlock_ok_iff (e : LandlockEnv) (B : String) (maxLen : Nat) (b : Bool) :
    set_kcron_landlock e B maxLen = .ok b ↔
      ((e.abi ≤ 0 ∧ b = false) ∨
       (0 < e.abi ∧ e.allocOk = true ∧ B.length < maxLen ∧ e.createOk = true ∧
        e.strdupOk = true ∧ e.openParentOk = true ∧ e.addRuleOk = true ∧
        e.restrictOk = true ∧ b = true)) := by
  unfold set_kcron_landlock get_client_dirname
  split_ifs <;> simp_all <;> omega

theorem seccomp_ok_iff (e : SeccompEnv) (r : Nat) :
    set_kcron_seccomp e = .ok r ↔
      (e.initOk = true ∧ (List.range 21).all e.ruleOk = true ∧
       e.loadOk = true ∧ r = 0) := by
  unfold set_kcron_seccomp
  split_ifs <;> simp_all
  exact eq_comm

theorem harden_ok_stages (e : HardenEnv) (l : List Stage)
    (h : harden_runtime e = .ok l) :
    l = specStages e.useLandlock (decide (0 < e.ll.abi)) e.useSeccomp := by
  unfold harden_runtime at h
  repeat' split at h
  all_goals try simp_all [specStages, landlock_ok_iff, seccomp_ok_iff, disable_ok_iff]
  all_goals (subst h; simp [if_neg (show ¬ (0 : Int) < e.ll.abi by omega)])
theorem harden_ok_facts (e : HardenEnv) (l : List Stage)
    (h : harden_runtime e = .ok l) :
    e.freopenOk = true ∧ e.dumpableOk = true ∧ e.noNewPrivsOk = true ∧
    e.clearenvOk = true ∧ set_kcron_ulimits e.ul = 0 ∧
    (e.useLandlock = true → set_kcron_landlock e.ll e.B e.maxLen ≠ .exit) ∧
    (e.useSeccomp = true → set_kcron_seccomp e.sc ≠ .exit) ∧
    disable_capabilities e.dCaps [] ≠ .exit := by
  unfold harden_runtime at h
  repeat' split at h
  all_goals simp_all

theorem harden_exit_of_fail (e : HardenEnv)
    (h : e.freopenOk = false ∨ e.dumpableOk = false ∨ e.noNewPrivsOk = false ∨
         e.clearenvOk = false ∨ set_kcron_ulimits e.ul ≠ 0 ∨
         (e.useLandlock = true ∧ set_kcron_landlock e.ll e.B e.maxLen = .exit) ∨
         (e.useSeccomp = true ∧ set_kcron_seccomp e.sc = .exit) ∨
         disable_capabilities e.dCaps [] = .exit) :
    harden_runtime e = .exit := by
  rcases hres : harden_runtime e with _ | l
  · rfl
  · exfalso
    obtain ⟨h1, h2, h3, h4, h5, h6, h7, h8⟩ := harden_ok_facts e l hres
    rcases h with h | h | h | h | h | ⟨ha, hb⟩ | ⟨ha, hb⟩ | h <;> simp_all

/-- C2: whenever harden_runtime completes, the stages it performed are
exactly the specification order — stdin redirection, core dump disable, no
new privileges, environment clearing, resource limits, filesystem scoping
when compiled in and supported, the syscall allowlist when compiled in,
and the capability drop — with the capability drop strictly last, no stage
repeated, and filesystem scoping strictly before the syscall allowlist;
every stage failure makes harden_runtime exit; and the process model runs
the whole pipeline once, before any of the application events of main, with
a hardening failure producing no application event at all. -/
theorem c2_hardening_pipeline :
    (∀ (e : HardenEnv) (l : List Stage), harden_runtime e = .ok l →
       l = specStages e.useLandlock (decide (0 < e.ll.abi)) e.useSeccomp ∧
       l.getLast? = some Stage.capDrop ∧
       l.Nodup ∧
       (Stage.landlock ∈ l → Stage.seccomp ∈ l →
         l.indexOf Stage.landlock < l.indexOf Stage.seccomp)) ∧
    (∀ e : HardenEnv,
       (e.freopenOk = false ∨ e.dumpableOk = false ∨ e.noNewPrivsOk = false ∨
        e.clearenvOk = false ∨ set_kcron_ulimits e.ul ≠ 0 ∨
        (e.useLandlock = true ∧ set_kcron_landlock e.ll e.B e.maxLen = .exit) ∨
        (e.useSeccomp = true ∧ set_kcron_seccomp e.sc = .exit) ∨
        disable_capabilities e.dCaps [] = .exit) →
       harden_runtime e = .exit) ∧
    (∀ (he : HardenEnv) (me : MainEnv) (fb : Option FileSt),
       (harden_runtime he = .exit → runProcess he me fb = (1, [])) ∧
       (∀ l, harden_runtime he = .ok l →
          runProcess he me fb =
            ((kcron_main me fb []).code,
             l.map Sum.inl ++ (kcron_main me fb []).evs.map Sum.inr))) := by
  refine ⟨?_, harden_exit_of_fail, ?_⟩
  · intro e l h
    have hl := harden_ok_stages e l h
    subst hl
    rcases hL : e.useLandlock <;> rcases hS : e.useSeccomp <;>
      rcases hA : decide (0 < e.ll.abi) <;>
      simp [specStages, hL, hS, hA] <;> decide
  · intro he me fb
    constructor
    · intro hx
      unfold runProcess
      rw [hx]
    · intro l hl
      unfold runProcess
      rw [hl]

/-- Witness for C2: the all success environment with landlock ABI 3 and
seccomp compiled in performs exactly the eight stages in order, and a
process whose stdin redirection fails dies with no stage and no
application event. -/
theorem c2_hardening_pipeline_witness :
    ([Stage.stdinNull, Stage.coreDump, Stage.noNewPrivs, Stage.clearEnv,
      Stage.rlimits, Stage.landlock, Stage.seccomp, Stage.capDrop] =
       specStages hardenOkEnv.useLandlock (decide (0 < hardenOkEnv.ll.abi))
         hardenOkEnv.useSeccomp ∧
     List.getLast? [Stage.stdinNull, Stage.coreDump, Stage.noNewPrivs,
       Stage.clearEnv, Stage.rlimits, Stage.landlock, Stage.seccomp,
       Stage.capDrop] = some Stage.capDrop ∧
     List.Nodup [Stage.stdinNull, Stage.coreDump, Stage.noNewPrivs,
       Stage.clearEnv, Stage.rlimits, Stage.landlock, Stage.seccomp,
       Stage.capDrop] ∧
     (Stage.landlock ∈ [Stage.stdinNull, Stage.coreDump, Stage.noNewPrivs,
         Stage.clearEnv, Stage.rlimits, Stage.landlock, Stage.seccomp,
         Stage.capDrop] →
      Stage.seccomp ∈ [Stage.stdinNull, Stage.coreDump, Stage.noNewPrivs,
         Stage.clearEnv, Stage.rlimits, Stage.landlock, Stage.seccomp,
         Stage.capDrop] →
      List.indexOf Stage.landlock [Stage.stdinNull, Stage.coreDump,
         Stage.noNewPrivs, Stage.clearEnv, Stage.rlimits, Stage.landlock,
         Stage.seccomp, Stage.capDrop] <
        List.indexOf Stage.seccomp [Stage.stdinNull, Stage.coreDump,
          Stage.noNewPrivs, Stage.clearEnv, Stage.rlimits, Stage.landlock,
          Stage.seccomp, Stage.capDrop])) ∧
    runProcess { hardenOkEnv with freopenOk := false } mainOkEnv none = (1, []) :=
  ⟨c2_hardening_pipeline.1 hardenOkEnv
     [Stage.stdinNull, Stage.coreDump, Stage.noNewPrivs, Stage.clearEnv,
      Stage.rlimits, Stage.landlock, Stage.seccomp, Stage.capDrop] (by decide),
   (c2_hardening_pipeline.2.2 { hardenOkEnv with freopenOk := false }
       mainOkEnv none).1
     (c2_hardening_pipeline.2.1 { hardenOkEnv with freopenOk := false }
       (Or.inl rfl))⟩

theorem chown_bracket2_ok (e : ChownEnv) (f1 : FileSt) (uid gid : Nat)
    (cr : List Nat)
    (h : (chown_bracket2 e f1 uid gid []).res = .ok (0, cr)) :
    (chown_bracket2 e f1 uid gid []).file =
      ⟨f1.isReg, f1.mode, uid, gid, f1.content⟩ ∧
    ((f1.uid = uid ∧ f1.gid = gid) → (chown_bracket2 e f1 uid gid []).evs = []) ∧
    ((f1.uid ≠ uid ∨ f1.gid ≠ gid) →
      (chown_bracket2 e f1 uid gid []).evs = [Ev.evFileChown uid gid]) := by
  cases f1
  unfold chown_bracket2 at h ⊢
  repeat' split at h
  all_goals simp_all [enable_ok_iff, disable_ok_iff]

theorem chown_after_ok (e : ChownEnv) (f : FileSt) (uid gid : Nat)
    (cr : List Nat)
    (h : (chown_after e f uid gid []).res = .ok (0, cr)) :
    f.isReg = true ∧
    (chown_after e f uid gid []).file = ⟨f.isReg, mode0600, uid, gid, f.content⟩ ∧
    ((f.uid = uid ∧ f.gid = gid) →
      (chown_after e f uid gid []).evs = [Ev.evFileChmod mode0600]) ∧
    ((f.uid ≠ uid ∨ f.gid ≠ gid) →
      (chown_after e f uid gid []).evs =
        [Ev.evFileChmod mode0600, Ev.evFileChown uid gid]) := by
  unfold chown_after at h ⊢
  repeat' split at h
  all_goals try simp_all [disable_ok_iff]
  all_goals (
    obtain ⟨hf, he1, he2⟩ :=
      chown_bracket2_ok e ⟨true, mode0600, f.uid, f.gid, f.content⟩ uid gid cr h
    refine ⟨hf, ?_, ?_⟩
    · intro h1 h2
      have h3 := he1 ⟨h1, h2⟩
      simp_all
    · intro h1
      exact he2 (by simpa using h1))
/-- C7: a successful chown_chmod_keytab run requires that the fstat on the
open handle observed a regular file; it leaves the file with mode 0600
(chmod performed unconditionally) owned by the passed (real) uid and gid;
and the ownership change event occurs exactly when the observed owner or
group differed from the real identity. -/
theorem c7_chown_chmod_keytab (e : ChownEnv) (fd : Int) (f : FileSt)
    (uid gid : Nat) (cr : List Nat)
    (h : (chown_chmod_keytab e fd f uid gid []).res = .ok (0, cr)) :
    f.isReg = true ∧
    (chown_chmod_keytab e fd f uid gid []).file =
      ⟨f.isReg, mode0600, uid, gid, f.content⟩ ∧
    ((f.uid = uid ∧ f.gid = gid) →
      (chown_chmod_keytab e fd f uid gid []).evs = [Ev.evFileChmod mode0600]) ∧
    ((f.uid ≠ uid ∨ f.gid ≠ gid) →
      (chown_chmod_keytab e fd f uid gid []).evs =
        [Ev.evFileChmod mode0600, Ev.evFileChown uid gid]) := by
  unfold chown_chmod_keytab at h ⊢
  repeat' split at h
  all_goals try simp_all [enable_ok_iff, disable_ok_iff]
  all_goals (
    obtain ⟨a, b, c2, d2⟩ := chown_after_ok e f uid gid cr h
    exact ⟨a, b, fun h1 h2 => c2 ⟨h1, h2⟩, d2⟩)

/-- Witness for C7: finalizing a root owned 0644 file for caller 1001:1001
yields mode 0600, owner 1001:1001, with the chmod and the chown both
performed. -/
theorem c7_chown_chmod_keytab_witness :
    (⟨true, 0o644, 0, 0, [0x05, 0x02]⟩ : FileSt).isReg = true ∧
    (chown_chmod_keytab chownOkEnv 4 ⟨true, 0o644, 0, 0, [0x05, 0x02]⟩
        1001 1001 []).file = ⟨true, mode0600, 1001, 1001, [0x05, 0x02]⟩ ∧
    (((⟨true, 0o644, 0, 0, [0x05, 0x02]⟩ : FileSt).uid = 1001 ∧
       (⟨true, 0o644, 0, 0, [0x05, 0x02]⟩ : FileSt).gid = 1001) →
      (chown_chmod_keytab chownOkEnv 4 ⟨true, 0o644, 0, 0, [0x05, 0x02]⟩
        1001 1001 []).evs = [Ev.evFileChmod mode0600]) ∧
    (((⟨true, 0o644, 0, 0, [0x05, 0x02]⟩ : FileSt).uid ≠ 1001 ∨
       (⟨true, 0o644, 0, 0, [0x05, 0x02]⟩ : FileSt).gid ≠ 1001) →
      (chown_chmod_keytab chownOkEnv 4 ⟨true, 0o644, 0, 0, [0x05, 0x02]⟩
        1001 1001 []).evs =
        [Ev.evFileChmod mode0600, Ev.evFileChown 1001 1001]) :=
  c7_chown_chmod_keytab chownOkEnv 4 ⟨true, 0o644, 0, 0, [0x05, 0x02]⟩
    1001 1001 [] (by decide)

/-- C5: when the configured base directory B is a symlink, or when B is a
real directory but the per user directory B/U is a symlink, the initializer
exits with status 1, stopped by the lstat based symlink check (the final
diagnostic of the stopping check is the symlink message), and performs no
filesystem effect at all: no directory creation, no file open or creation,
no write, and the keytab file state is untouched. -/
theorem c5_symlink_rejection (e : MainEnv) (fb : Option FileSt)
    (halloc : e.allocOk = true) (hfit : e.B.length < e.maxLen) :
    ((e.val.lstatOk = true ∧ e.val.lstatIsLnk = true) →
      (kcron_main e fb []).code = 1 ∧ (kcron_main e fb []).evs = [] ∧
      (kcron_main e fb []).file = fb ∧ (kcron_main e fb []).printed = none ∧
      (kcron_main e fb []).msgs =
        ["Client keytab directory is a symlink, not allowed."]) ∧
    ((e.val.lstatOk = true ∧ e.val.lstatIsLnk = false ∧ e.val.statOk = true ∧
      e.mke.dirNull = false ∧ e.mke.lstatOk = true ∧ e.mke.lstatIsLnk = true ∧
      (Nat.repr e.ruid).length < e.unameMax ∧
      "client.keytab".length < e.maxLen ∧
      (e.B ++ "/" ++ Nat.repr e.ruid).length < e.maxLen ∧
      (e.B ++ "/" ++ Nat.repr e.ruid ++ "/" ++ "client.keytab").length < e.maxLen) →
      (kcron_main e fb []).code = 1 ∧ (kcron_main e fb []).evs = [] ∧
      (kcron_main e fb []).file = fb ∧ (kcron_main e fb []).printed = none ∧
      (kcron_main e fb []).msgs = ["is a symlink, not allowed.", "Cannot make dir"]) := by
  constructor
  · rintro ⟨h1, h2⟩
    simp [kcron_main, get_client_dirname, validate_client_dirname, halloc,
      h1, h2, Nat.not_le.mpr hfit]
  · rintro ⟨h1, h2, h3, h4, h5, h6, h7, h8, h9, h10⟩
    have h9a : ¬ e.maxLen ≤ e.B.length + "/".length + (Nat.repr e.ruid).length := by
      simp only [String.length_append] at h9
      omega
    have h10a : ¬ e.maxLen ≤ e.B.length + "/".length + (Nat.repr e.ruid).length
        + "/".length + "client.keytab".length := by
      simp only [String.length_append] at h10
      omega
    simp [kcron_main, get_client_dirname, get_filenames, validate_client_dirname,
      mkdir_if_missing, halloc, h1, h2, h3, h4, h5, h6,
      Nat.not_le.mpr hfit, Nat.not_le.mpr h7, Nat.not_le.mpr h8, h9a, h10a]

/-- Witness for C5: with the base directory a symlink the run exits 1 with
no effect; with the per user directory a symlink the run exits 1 with no
effect. -/
theorem c5_symlink_rejection_witness :
    ((kcron_main { mainOkEnv with val := ⟨true, true, true⟩ } none []).code = 1 ∧
     (kcron_main { mainOkEnv with val := ⟨true, true, true⟩ } none []).evs = [] ∧
     (kcron_main { mainOkEnv with val := ⟨true, true, true⟩ } none []).file = none ∧
     (kcron_main { mainOkEnv with val := ⟨true, true, true⟩ } none []).printed = none ∧
     (kcron_main { mainOkEnv with val := ⟨true, true, true⟩ } none []).msgs =
       ["Client keytab directory is a symlink, not allowed."]) ∧
    ((kcron_main { mainOkEnv with
        mke := { mkdirOkEnv with lstatOk := true, lstatIsLnk := true } } none []).code = 1 ∧
     (kcron_main { mainOkEnv with
        mke := { mkdirOkEnv with lstatOk := true, lstatIsLnk := true } } none []).evs = [] ∧
     (kcron_main { mainOkEnv with
        mke := { mkdirOkEnv with lstatOk := true, lstatIsLnk := true } } none []).file = none ∧
     (kcron_main { mainOkEnv with
        mke := { mkdirOkEnv with lstatOk := true, lstatIsLnk := true } } none []).printed = none ∧
     (kcron_main { mainOkEnv with
        mke := { mkdirOkEnv with lstatOk := true, lstatIsLnk := true } } none []).msgs =
       ["is a symlink, not allowed.", "Cannot make dir"]) :=
  ⟨(c5_symlink_rejection { mainOkEnv with val := ⟨true, true, true⟩ } none
      (by decide) (by decide)).1 ⟨rfl, rfl⟩,
   (c5_symlink_rejection { mainOkEnv with
      mke := { mkdirOkEnv with lstatOk := true, lstatIsLnk := true } } none
      (by decide) (by decide)).2
     ⟨rfl, rfl, rfl, rfl, rfl, rfl, by decide, by decide, by decide, by decide⟩⟩

theorem mkdir_bracket2_evs (e : MkdirEnv) (o g : Nat) (caps2 : List Nat) :
    ∀ ev ∈ (mkdir_bracket2 e o g caps2).evs, ev = Ev.evDirChown o g := by
  unfold mkdir_bracket2
  repeat' split
  all_goals simp_all

theorem mkdir_verify_evs (e : MkdirEnv) (o g : Nat) (caps2 : List Nat) :
    ∀ ev ∈ (mkdir_verify e o g caps2).evs, ev = Ev.evDirChown o g := by
  unfold mkdir_verify
  repeat' split
  all_goals try simp_all
  all_goals exact mkdir_bracket2_evs e o g caps2

theorem mkdir_bracket1_evs (e : MkdirEnv) (m o g : Nat) (caps1 : List Nat) :
    ∀ ev ∈ (mkdir_bracket1 e m o g caps1).evs,
      ev = Ev.evMkdir m ∨ ev = Ev.evDirChown o g := by
  unfold mkdir_bracket1
  repeat' split
  all_goals try simp_all
  all_goals first
    | exact fun ev hev => Or.inr (mkdir_verify_evs e o g _ ev hev)
    | (intro ev hev
       rcases List.mem_cons.mp hev with rfl | hev2
       · exact Or.inl rfl
       · exact Or.inr (mkdir_verify_evs e o g _ ev hev2))

theorem mkdir_evs (e : MkdirEnv) (m o g : Nat) (caps0 : List Nat) :
    ∀ ev ∈ (mkdir_if_missing e m o g caps0).evs,
      ev = Ev.evMkdir m ∨ ev = Ev.evDirChown o g := by
  unfold mkdir_if_missing
  repeat' split
  all_goals try simp_all
  all_goals exact mkdir_bracket1_evs e m o g _

/-- C6: mkdir_if_missing succeeds and performs no filesystem effect when
the target already exists as a directory, fails with no effect when it
exists as a non directory, and a second initializer run for the same
identity — where the keytab path already exists — exits 0, prints the
path, and leaves the file state, events and diagnostics untouched, exactly
as the first run did for the path. -/
theorem c6_idempotent_rerun :
    (∀ (e : MkdirEnv) (m o g : Nat) (caps0 : List Nat),
       e.dirNull = false → e.lstatIsLnk = false → e.statOk = true →
       e.statIsDir = true →
       mkdir_if_missing e m o g caps0 = ⟨.ok (0, caps0), [], [caps0], []⟩) ∧
    (∀ (e : MkdirEnv) (m o g : Nat) (caps0 : List Nat),
       e.dirNull = false → e.lstatIsLnk = false → e.statOk = true →
       e.statIsDir = false →
       mkdir_if_missing e m o g caps0 =
         ⟨.ok (1, caps0), [], [caps0], ["is not a directory."]⟩) ∧
    (∀ (e : MainEnv) (f : FileSt),
       e.allocOk = true → e.B.length < e.maxLen →
       (Nat.repr e.ruid).length < e.unameMax →
       "client.keytab".length < e.maxLen →
       (e.B ++ "/" ++ Nat.repr e.ruid).length < e.maxLen →
       (e.B ++ "/" ++ Nat.repr e.ruid ++ "/" ++ "client.keytab").length < e.maxLen →
       e.val.lstatOk = true → e.val.lstatIsLnk = false → e.val.statOk = true →
       e.mke.dirNull = false → e.mke.lstatIsLnk = false → e.mke.statOk = true →
       e.mke.statIsDir = true →
       enable_capabilities e.enM [CAP_DAC_OVERRIDE] [] = .ok (0, [CAP_DAC_OVERRIDE]) →
       disable_capabilities e.dM [CAP_DAC_OVERRIDE] = .ok [] →
       (kcron_main e (some f) []).code = 0 ∧
       (kcron_main e (some f) []).printed =
         some (e.B ++ "/" ++ Nat.repr e.ruid ++ "/" ++ "client.keytab") ∧
       (kcron_main e (some f) []).file = some f ∧
       (kcron_main e (some f) []).evs = [] ∧
       (kcron_main e (some f) []).msgs = []) := by
  refine ⟨?_, ?_, ?_⟩
  · intro e m o g caps0 h1 h2 h3 h4
    simp [mkdir_if_missing, h1, h2, h3, h4]
  · intro e m o g caps0 h1 h2 h3 h4
    simp [mkdir_if_missing, h1, h2, h3, h4]
  · intro e f halloc hfit h7 h8 h9 h10 v1 v2 v3 m1 m2 m3 m4 henM hdM
    have h9a : ¬ e.maxLen ≤ e.B.length + "/".length + (Nat.repr e.ruid).length := by
      simp only [String.length_append] at h9
      omega
    have h10a : ¬ e.maxLen ≤ e.B.length + "/".length + (Nat.repr e.ruid).length
        + "/".length + "client.keytab".length := by
      simp only [String.length_append] at h10
      omega
    simp [kcron_main, main_stat_phase, get_client_dirname, get_filenames,
      validate_client_dirname, mkdir_if_missing, halloc, v1, v2, v3, m1, m2, m3,
      m4, henM, hdM, Nat.not_le.mpr hfit, Nat.not_le.mpr h7, Nat.not_le.mpr h8,
      h9a, h10a]

/-- Witness for C6: with the per user directory already present, ensuring
it is a no op success, and a second run over an existing keytab file (mode
0600, owner 1001:1001, header bytes) exits 0, prints the path and changes
nothing. -/
theorem c6_idempotent_rerun_witness :
    mkdir_if_missing mkdirExistsEnv mode0700 1001 1001 [] =
      ⟨.ok (0, []), [], [[]], []⟩ ∧
    ((kcron_main { mainOkEnv with mke := mkdirExistsEnv }
        (some ⟨true, mode0600, 1001, 1001, [0x05, 0x02]⟩) []).code = 0 ∧
     (kcron_main { mainOkEnv with mke := mkdirExistsEnv }
        (some ⟨true, mode0600, 1001, 1001, [0x05, 0x02]⟩) []).printed =
       some ("/var/kcron" ++ "/" ++ Nat.repr 1001 ++ "/" ++ "client.keytab") ∧
     (kcron_main { mainOkEnv with mke := mkdirExistsEnv }
        (some ⟨true, mode0600, 1001, 1001, [0x05, 0x02]⟩) []).file =
       some ⟨true, mode0600, 1001, 1001, [0x05, 0x02]⟩ ∧
     (kcron_main { mainOkEnv with mke := mkdirExistsEnv }
        (some ⟨true, mode0600, 1001, 1001, [0x05, 0x02]⟩) []).evs = [] ∧
     (kcron_main { mainOkEnv with mke := mkdirExistsEnv }
        (some ⟨true, mode0600, 1001, 1001, [0x05, 0x02]⟩) []).msgs = []) :=
  ⟨c6_idempotent_rerun.1 mkdirExistsEnv mode0700 1001 1001 [] rfl rfl rfl rfl,
   c6_idempotent_rerun.2.2 { mainOkEnv with mke := mkdirExistsEnv }
     ⟨true, mode0600, 1001, 1001, [0x05, 0x02]⟩ rfl (by decide) (by decide)
     (by decide) (by decide) (by decide) rfl rfl rfl rfl rfl rfl rfl
     (by decide) (by decide)⟩

/-- C9: whenever the full keytab path already exists at the pre creation
stat check (fileBefore is some file, of any content, mode and owner) and
the run reaches that check, the initializer skips file creation, header
writing, mode setting and ownership fixing entirely: the file state is
returned untouched, every event of the run is a directory event of
mkdir_if_missing (no file open, write, chmod, chown or fsync), and the run
prints the path and exits 0. -/
theorem c9_existing_file_untouched (e : MainEnv) (f : FileSt) (caps1 : List Nat)
    (halloc : e.allocOk = true) (hfit : e.B.length < e.maxLen)
    (h7 : (Nat.repr e.ruid).length < e.unameMax)
    (h8 : "client.keytab".length < e.maxLen)
    (h9 : (e.B ++ "/" ++ Nat.repr e.ruid).length < e.maxLen)
    (h10 : (e.B ++ "/" ++ Nat.repr e.ruid ++ "/" ++ "client.keytab").length < e.maxLen)
    (v1 : e.val.lstatOk = true) (v2 : e.val.lstatIsLnk = false)
    (v3 : e.val.statOk = true)
    (hmk : (mkdir_if_missing e.mke mode0700 e.ruid e.rgid []).res = .ok (0, caps1))
    (henM : enable_capabilities e.enM [CAP_DAC_OVERRIDE] [] = .ok (0, [CAP_DAC_OVERRIDE]))
    (hdM : disable_capabilities e.dM [CAP_DAC_OVERRIDE] = .ok []) :
    (kcron_main e (some f) []).code = 0 ∧
    (kcron_main e (some f) []).printed =
      some (e.B ++ "/" ++ Nat.repr e.ruid ++ "/" ++ "client.keytab") ∧
    (kcron_main e (some f) []).file = some f ∧
    (∀ ev ∈ (kcron_main e (some f) []).evs,
       ev = Ev.evMkdir mode0700 ∨ ev = Ev.evDirChown e.ruid e.rgid) := by
  have hc1 : caps1 = [] :=
    (mkdir_inv e.mke mode0700 e.ruid e.rgid).2 0 caps1 hmk
  subst hc1
  have h9a : ¬ e.maxLen ≤ e.B.length + "/".length + (Nat.repr e.ruid).length := by
    simp only [String.length_append] at h9
    omega
  have h10a : ¬ e.maxLen ≤ e.B.length + "/".length + (Nat.repr e.ruid).length
      + "/".length + "client.keytab".length := by
    simp only [String.length_append] at h10
    omega
  have hevs := mkdir_evs e.mke mode0700 e.ruid e.rgid []
  simp [kcron_main, main_stat_phase, get_client_dirname, get_filenames,
    validate_client_dirname, halloc, v1, v2, v3, hmk, henM, hdM,
    Nat.not_le.mpr hfit, Nat.not_le.mpr h7, Nat.not_le.mpr h8, h9a, h10a]
  exact hevs

/-- Witness for C9: a run over an existing keytab with the wrong bytes,
mode and owner (content 9 9, mode 0644, owner 0:0) exits 0, prints the
path, and leaves the file exactly as it was; the only events are the
directory ones. -/
theorem c9_existing_file_untouched_witness :
    (kcron_main mainOkEnv (some ⟨true, 0o644, 0, 0, [9, 9]⟩) []).code = 0 ∧
    (kcron_main mainOkEnv (some ⟨true, 0o644, 0, 0, [9, 9]⟩) []).printed =
      some ("/var/kcron" ++ "/" ++ Nat.repr 1001 ++ "/" ++ "client.keytab") ∧
    (kcron_main mainOkEnv (some ⟨true, 0o644, 0, 0, [9, 9]⟩) []).file =
      some ⟨true, 0o644, 0, 0, [9, 9]⟩ ∧
    (∀ ev ∈ (kcron_main mainOkEnv (some ⟨true, 0o644, 0, 0, [9, 9]⟩) []).evs,
       ev = Ev.evMkdir mode0700 ∨ ev = Ev.evDirChown 1001 1001) :=
  c9_existing_file_untouched mainOkEnv ⟨true, 0o644, 0, 0, [9, 9]⟩ []
    rfl (by decide) (by decide) (by decide) (by decide) (by decide)
    rfl rfl rfl (by decide) (by decide) (by decide)

theorem mkdir_bracket2_msgs (e : MkdirEnv) (o g : Nat) (caps2 : List Nat) :
    ∀ m ∈ (mkdir_bracket2 e o g caps2).msgs,
      m ≠ "Cannot enable capabilities." ∧ m ≠ "Cannot create keytab." := by
  unfold mkdir_bracket2
  repeat' split
  all_goals simp_all [enable_ok_iff]

theorem mkdir_verify_msgs (e : MkdirEnv) (o g : Nat) (caps2 : List Nat) :
    ∀ m ∈ (mkdir_verify e o g caps2).msgs,
      m ≠ "Cannot enable capabilities." ∧ m ≠ "Cannot create keytab." := by
  unfold mkdir_verify
  repeat' split
  all_goals try simp_all
  all_goals exact mkdir_bracket2_msgs e o g caps2

theorem mkdir_bracket1_msgs (e : MkdirEnv) (m o g : Nat) (caps1 : List Nat) :
    ∀ x ∈ (mkdir_bracket1 e m o g caps1).msgs,
      x ≠ "Cannot enable capabilities." ∧ x ≠ "Cannot create keytab." := by
  unfold mkdir_bracket1
  repeat' split
  all_goals try simp_all
  all_goals exact mkdir_verify_msgs e o g _

theorem mkdir_msgs (e : MkdirEnv) (m o g : Nat) (caps0 : List Nat) :
    ∀ x ∈ (mkdir_if_missing e m o g caps0).msgs,
      x ≠ "Cannot enable capabilities." ∧ x ≠ "Cannot create keytab." := by
  unfold mkdir_if_missing
  repeat' split
  all_goals try simp_all [enable_ok_iff]
  all_goals exact mkdir_bracket1_msgs e m o g _

theorem chown_bracket2_msgs (e : ChownEnv) (f1 : FileSt) (uid gid : Nat)
    (caps2 : List Nat) :
    ∀ m ∈ (chown_bracket2 e f1 uid gid caps2).msgs,
      m ≠ "Cannot enable capabilities." ∧ m ≠ "Cannot create keytab." := by
  unfold chown_bracket2
  repeat' split
  all_goals simp_all [enable_ok_iff]

theorem chown_after_msgs (e : ChownEnv) (f : FileSt) (uid gid : Nat)
    (caps2 : List Nat) :
    ∀ m ∈ (chown_after e f uid gid caps2).msgs,
      m ≠ "Cannot enable capabilities." ∧ m ≠ "Cannot create keytab." := by
  unfold chown_after
  repeat' split
  all_goals try simp_all
  all_goals exact chown_bracket2_msgs e _ uid gid caps2

theorem chown_msgs (e : ChownEnv) (fd : Int) (f : FileSt) (uid gid : Nat)
    (caps0 : List Nat) :
    ∀ m ∈ (chown_chmod_keytab e fd f uid gid caps0).msgs,
      m ≠ "Cannot enable capabilities." ∧ m ≠ "Cannot create keytab." := by
  unfold chown_chmod_keytab
  repeat' split
  all_goals try simp_all [enable_ok_iff]
  all_goals exact chown_after_msgs e f uid gid _
theorem create_write_msgs (e : CreateEnv) (ruid rgid : Nat) (f : FileSt)
    (caps2 : List Nat) :
    ∀ m ∈ (create_write e ruid rgid f caps2).msgs,
      m ≠ "Cannot enable capabilities." ∧ m ≠ "Cannot create keytab." := by
  unfold create_write
  rcases hw : write_empty_keytab e.we e.fd f.content with ⟨rw, c2, wevs⟩
  rcases rw with _ | r0
  · simp [hw]
  · obtain ⟨-, -, -, -, -, -, -, hr0, hc2, hevs⟩ :=
      (write_ok_iff e.we e.fd f.content r0 c2 wevs).mp hw
    subst hr0 hc2 hevs
    simp only [hw]
    have hc := chown_msgs e.ce e.fd
      { f with content := f.content ++ [0x05, 0x02] } ruid rgid caps2
    rcases hcc : (chown_chmod_keytab e.ce e.fd
        { f with content := f.content ++ [0x05, 0x02] } ruid rgid caps2).res
      with _ | ⟨rc, caps3⟩
    · simp [hcc]
      exact hc
    · simp only [hcc]
      split_ifs <;> first
        | (simp only []
           intro m hm
           rcases List.mem_append.mp hm with h | h
           · exact hc m h
           · simp_all)
        | (simp
           exact hc)
        | exact hc
        | simp_all

theorem create_opened_msgs (e : CreateEnv) (ruid rgid : Nat) (f : FileSt)
    (caps2 : List Nat) :
    ∀ m ∈ (create_opened e ruid rgid f caps2).msgs,
      m ≠ "Cannot enable capabilities." ∧ m ≠ "Cannot create keytab." := by
  unfold create_opened
  repeat' split
  all_goals try simp_all
  all_goals exact create_write_msgs e ruid rgid f caps2

theorem create_verify_msgs (e : CreateEnv) (euid egid ruid rgid : Nat)
    (fb : Option FileSt) (caps2 : List Nat) :
    ∀ m ∈ (create_verify e euid egid ruid rgid fb caps2).msgs,
      m ≠ "Cannot enable capabilities." ∧ m ≠ "Cannot create keytab." := by
  rcases fb with _ | f0 <;> unfold create_verify <;> repeat' split
  all_goals try simp_all
  all_goals try exact create_opened_msgs e ruid rgid ⟨true, mode0600, euid, egid, []⟩ caps2
  all_goals (rename_i hq; subst hq; exact create_opened_msgs e ruid rgid f0 caps2)

theorem create_bracket_msgs (e : CreateEnv) (euid egid ruid rgid : Nat)
    (fb : Option FileSt) (caps1 : List Nat) :
    ∀ m ∈ (create_bracket e euid egid ruid rgid fb caps1).msgs,
      m ≠ "Cannot enable capabilities." ∧ m ≠ "Cannot create keytab." := by
  unfold create_bracket
  repeat' split
  all_goals try simp_all
  all_goals exact create_verify_msgs e euid egid ruid rgid fb _

theorem create_msgs (e : CreateEnv) (euid egid ruid rgid : Nat)
    (fb : Option FileSt) (caps0 : List Nat) :
    ∀ m ∈ (create_keytab_file e euid egid ruid rgid fb caps0).msgs,
      m ≠ "Cannot enable capabilities." ∧ m ≠ "Cannot create keytab." := by
  unfold create_keytab_file
  repeat' split
  all_goals try simp_all [enable_ok_iff]
  all_goals exact create_bracket_msgs e euid egid ruid rgid fb _

theorem validate_msgs (e : ValidateEnv) (dn : Bool) :
    ∀ m ∈ (validate_client_dirname e dn).2,
      m ≠ "Cannot enable capabilities." ∧ m ≠ "Cannot create keytab." := by
  unfold validate_client_dirname
  repeat' split
  all_goals simp_all

theorem main_stat_msgs (e : MainEnv) (kt : String) (fb : Option FileSt)
    (caps1 : List Nat) :
    ∀ m ∈ (main_stat_phase e kt fb caps1).msgs,
      m ≠ "Cannot enable capabilities." ∧ m ≠ "Cannot create keytab." := by
  unfold main_stat_phase
  repeat' split
  all_goals try simp_all [enable_ok_iff, disable_ok_iff]
  all_goals (
    have hc := create_msgs e.ck e.euid e.egid e.ruid e.rgid none []
    rcases hres : (create_keytab_file e.ck e.euid e.egid e.ruid e.rgid none []).res
      with _ | ⟨rC, c4⟩
    · simp [hres]
      exact hc
    · simp only [hres]
      split_ifs <;> first
        | exact hc
        | (simp
           exact hc)
        | simp_all)

theorem kcron_main_msgs (e : MainEnv) (fb : Option FileSt) (caps0 : List Nat) :
    ∀ m ∈ (kcron_main e fb caps0).msgs,
      m ≠ "Cannot enable capabilities." ∧ m ≠ "Cannot create keytab." := by
  unfold kcron_main
  repeat' split
  all_goals try simp_all
  all_goals try (
    rename_i rv vmsgs hV hr
    intro m hm
    have h2 : m ∈ (validate_client_dirname e.val false).2 := by
      rw [hV]
      exact hm
    exact validate_msgs e.val false m h2)
  all_goals (
    have hmm := mkdir_msgs e.mke mode0700 e.ruid e.rgid caps0
    rcases hmo : (mkdir_if_missing e.mke mode0700 e.ruid e.rgid caps0).res
      with _ | ⟨rM, caps1⟩
    · simp [hmo]
      exact hmm
    · simp only [hmo]
      split_ifs
      · intro m hm
        rcases List.mem_append.mp hm with h | h
        · exact hmm m h
        · exact main_stat_msgs e _ fb caps1 m h
      · intro m hm
        rcases List.mem_append.mp hm with h | h
        · exact hmm m h
        · simp_all)

/-- C10 counterexample to the exclusivity clause: enable_capabilities and
write_empty_keytab are not the only caller tested functions that exit on
every internal failure and return only 0 — get_client_dirname (tested by
main, the Client keytab directory not set branch) and set_kcron_seccomp
(tested by harden_runtime, the Cannot enable seccomp filters branch) have
the same shape, over every environment. -/
theorem c10_counterexample :
    (∀ (B : String) (maxLen : Nat),
       get_client_dirname B maxLen = .exit ∨
       get_client_dirname B maxLen = .ok (0, B)) ∧
    (∀ e : SeccompEnv,
       set_kcron_seccomp e = .exit ∨ set_kcron_seccomp e = .ok 0) := by
  constructor
  · intro B maxLen
    unfold get_client_dirname
    split_ifs <;> simp
  · intro e
    unfold set_kcron_seccomp
    split_ifs <;> simp

/-- C10 (amended): enable_capabilities and write_empty_keytab terminate the
process directly on every internal failure and return only 0, so every
caller branch handling a non zero return from them — in particular every
branch printing Cannot enable capabilities (in mkdir_if_missing,
chown_chmod_keytab, create_keytab_file and main) and the Cannot create
keytab branch of create_keytab_file — is unreachable in every syscall
outcome environment. -/
theorem c10_dead_error_branches :
    (∀ (ee : EnableEnv) (l caps : List Nat),
       enable_capabilities ee l caps = .exit ∨
       ∃ cr, enable_capabilities ee l caps = .ok (0, cr)) ∧
    (∀ (we : WriteEnv) (fd : Int) (ct : List Nat),
       (write_empty_keytab we fd ct).1 = .exit ∨
       (write_empty_keytab we fd ct).1 = .ok 0) ∧
    (∀ (e : MkdirEnv) (m o g : Nat) (caps0 : List Nat),
       "Cannot enable capabilities." ∉ (mkdir_if_missing e m o g caps0).msgs) ∧
    (∀ (e : CreateEnv) (a b c d : Nat) (fb : Option FileSt) (caps0 : List Nat),
       "Cannot enable capabilities." ∉ (create_keytab_file e a b c d fb caps0).msgs ∧
       "Cannot create keytab." ∉ (create_keytab_file e a b c d fb caps0).msgs) ∧
    (∀ (e : MainEnv) (fb : Option FileSt) (caps0 : List Nat),
       "Cannot enable capabilities." ∉ (kcron_main e fb caps0).msgs ∧
       "Cannot create keytab." ∉ (kcron_main e fb caps0).msgs) := by
  refine ⟨?_, ?_, ?_, ?_, ?_⟩
  · intro ee l caps
    rcases h : enable_capabilities ee l caps with _ | ⟨r, cr⟩
    · exact Or.inl rfl
    · obtain ⟨-, -, -, -, -, -, -, -, -, hp⟩ := (enable_ok_iff ee l caps (r, cr)).mp h
      injection hp with h1 h2
      subst h1
      exact Or.inr ⟨cr, rfl⟩
  · intro we fd ct
    rcases hw : write_empty_keytab we fd ct with ⟨rw, c2, wevs⟩
    rcases rw with _ | r0
    · exact Or.inl rfl
    · obtain ⟨-, -, -, -, -, -, -, hr0, -, -⟩ :=
        (write_ok_iff we fd ct r0 c2 wevs).mp hw
      subst hr0
      exact Or.inr rfl
  · intro e m o g caps0 h
    exact (mkdir_msgs e m o g caps0 _ h).1 rfl
  · intro e a b c d fb caps0
    exact ⟨fun h => (create_msgs e a b c d fb caps0 _ h).1 rfl,
           fun h => (create_msgs e a b c d fb caps0 _ h).2 rfl⟩
  · intro e fb caps0
    exact ⟨fun h => (kcron_main_msgs e fb caps0 _ h).1 rfl,
           fun h => (kcron_main_msgs e fb caps0 _ h).2 rfl⟩

/-- Witness for C10 at concrete inputs: the successful enable returns 0,
the successful write returns 0, and the all success mkdir run never prints
the Cannot enable capabilities diagnostic. -/
theorem c10_dead_error_branches_witness :
    (enable_capabilities enableOkEnv [CAP_DAC_OVERRIDE] [] = .exit ∨
     ∃ cr, enable_capabilities enableOkEnv [CAP_DAC_OVERRIDE] [] = .ok (0, cr)) ∧
    ((write_empty_keytab writeOkEnv 4 []).1 = .exit ∨
     (write_empty_keytab writeOkEnv 4 []).1 = .ok 0) ∧
    "Cannot enable capabilities." ∉
      (mkdir_if_missing mkdirOkEnv mode0700 1001 1001 []).msgs :=
  ⟨c10_dead_error_branches.1 enableOkEnv [CAP_DAC_OVERRIDE] [],
   c10_dead_error_branches.2.1 writeOkEnv 4 [],
   c10_dead_error_branches.2.2.1 mkdirOkEnv mode0700 1001 1001 []⟩

end Kcron
